import Mathlib

/-!
Verification of the fslaps-fpl repository: a shallow embedding of the
data cache (cache_module.py), the GitHub data loader (github_data.py),
the tabular player wrapper (player_dataframe.py) with its view
configurations (data_models.py), and the enrichment layer
(data_enrichment.py).

Tables are embedded as lists of association-list rows over a simple
value type (numbers as exact rationals, strings, booleans, and a null
standing for pandas NaN/None).  Times are embedded as integer seconds
since the epoch, UTC; Python floor division on days corresponds to
Int division (Euclidean, floor for the positive divisor 86400).
pandas sort_values is embedded as a stable insertion sort; the claims
proved about sorting only rely on the output being a sorted permutation.
-/

namespace FPL

/- The Batteries rational arithmetic definitions are `@[irreducible]`,
which blocks elaborator-side evaluation of concrete tables; re-marking
them semireducible lets `decide` evaluate the examples below. -/
attribute [local semireducible] Rat.mul Rat.add Rat.sub Rat.inv Rat.ofScientific

/-- A cell value of a table: pandas NaN/None, a boolean, an exact
rational number, or a string. -/
inductive Val where
  | null : Val
  | bool (b : Bool) : Val
  | num (q : Rat) : Val
  | str (s : String) : Val
deriving DecidableEq, Repr

/-- Numeric reading of a value, as used by the arithmetic on columns
(`astype(float)` and plain column arithmetic): numbers are themselves,
booleans are 0/1, anything else reads as 0. -/
def Val.asRat : Val → Rat
  | .num q => q
  | .bool b => if b then 1 else 0
  | _ => 0

/-- Rank used to totalise comparisons across constructors. -/
def Val.rank : Val → Nat
  | .null => 0
  | .bool _ => 1
  | .num _ => 2
  | .str _ => 3

/-- Total boolean order on values.  On homogeneous numeric columns this
agrees with the pandas comparisons the code performs; across types it
falls back to a fixed rank order (the code never compares across types
on the filtered columns). -/
def Val.le (a b : Val) : Bool :=
  match a, b with
  | .bool x, .bool y => !x || y
  | .num x, .num y => decide (x ≤ y)
  | .str x, .str y => decide (x < y) || decide (x = y)
  | _, _ => decide (a.rank ≤ b.rank)

/-- Strict version of the order, for the pandas comparisons written
with a strict operator. -/
def Val.ltb (a b : Val) : Bool :=
  Val.le a b && !(Val.le b a)

/-- A row of a table: an association list from column name to value. -/
abbrev Row := List (String × Val)

/-- Read a cell; a missing column reads as null. -/
def Row.getVal (r : Row) (c : String) : Val :=
  match r.find? (fun p => p.1 == c) with
  | some p => p.2
  | none => .null

/-- Write a cell: replace the value under an existing key, or append a
new column at the end of the row (pandas appends new columns last). -/
def Row.setVal (r : Row) (c : String) (v : Val) : Row :=
  if r.any (fun p => p.1 == c) then
    r.map (fun p => if p.1 == c then (c, v) else p)
  else r ++ [(c, v)]

/-- A table (pandas DataFrame): a list of column names and a list of
rows keyed by those names. -/
structure DF where
  cols : List String
  rows : List Row
deriving DecidableEq, Repr

/-- Column assignment `df[c] = f(row)`: adds the column name if new and
writes the cell in every row. -/
def DF.setCol (df : DF) (c : String) (f : Row → Val) : DF :=
  { cols := if df.cols.contains c then df.cols else df.cols ++ [c],
    rows := df.rows.map (fun r => r.setVal c (f r)) }

/-- Boolean-mask row filtering `df[mask]`. -/
def DF.filterRows (df : DF) (p : Row → Bool) : DF :=
  { df with rows := df.rows.filter p }

/-- Column selection `df[cs]` for a list of existing columns. -/
def DF.selectCols (df : DF) (cs : List String) : DF :=
  { cols := cs, rows := df.rows.map (fun r => cs.map (fun c => (c, r.getVal c))) }

/-- Stable insertion into a sorted list: the new element goes before
the first element it compares less-or-equal to. -/
def insertLe (le : Row → Row → Bool) (x : Row) : List Row → List Row
  | [] => [x]
  | y :: ys => if le x y then x :: y :: ys else y :: insertLe le x ys

/-- Stable insertion sort. -/
def insSort (le : Row → Row → Bool) : List Row → List Row
  | [] => []
  | x :: xs => insertLe le x (insSort le xs)

/-- The row comparison used by `sort_values(c, ascending)`. -/
def sortCmp (c : String) (asc : Bool) (r1 r2 : Row) : Bool :=
  cond asc (Val.le (r1.getVal c) (r2.getVal c)) (Val.le (r2.getVal c) (r1.getVal c))

/-- `df.sort_values(c, ascending)`, embedded as a stable sort. -/
def DF.sortBy (df : DF) (c : String) (asc : Bool) : DF :=
  { df with rows := insSort (sortCmp c asc) df.rows }

/-! ## The smart cache (cache_module.py)

Times are integer seconds since the epoch, UTC.  `t.replace(hour=h,
minute=0, second=0, microsecond=0)` on a UTC datetime is
`(t / 86400) * 86400 + h * 3600` (Int division is floor division for
the positive divisor). -/

/-- `self.update_hours = [5, 17]`. -/
def update_hours : List Nat := [5, 17]

/-- `now.replace(hour=h, minute=0, second=0, microsecond=0)`. -/
def replaceHour (t : Int) (h : Nat) : Int :=
  (t / 86400) * 86400 + (h : Int) * 3600

/-- `SmartDataCache.should_refresh`, as a function of the cache's
`last_updated` field and the current time. -/
def should_refresh (last_updated : Option Int) (now : Int) : Bool :=
  match last_updated with
  | none => true
  | some lu =>
      (update_hours.any fun h =>
        decide (lu < replaceHour now h) && decide (replaceHour now h ≤ now))
      || (update_hours.any fun h =>
        decide (lu < replaceHour (now - 86400) h) && decide (replaceHour (now - 86400) h ≤ now))

/-- The civil day (days since epoch) containing instant `t`. -/
def dayOf (t : Int) : Int := t / 86400

/-- The instant at `h`:00:00 UTC of day `d` (the claim's scheduled
update instants are `schedInstant d 5` and `schedInstant d 17`). -/
def schedInstant (d : Int) (h : Nat) : Int := d * 86400 + (h : Int) * 3600

/-- Python `str(x)` on a cell, as used by `astype(str)`. -/
def Val.toStr : Val → String
  | .str s => s
  | .num q => toString q
  | .bool b => if b then "True" else "False"
  | .null => "None"

/-! ## data_models.py -/

/-- `POSITION_MAP` from data_models.py. -/
def POSITION_MAP : List (String × String) :=
  [("Goalkeeper", "GK"), ("Defender", "DEF"), ("Midfielder", "MID"), ("Forward", "FWD"),
   ("GK", "Goalkeeper"), ("DEF", "Defender"), ("MID", "Midfielder"), ("FWD", "Forward")]

/-- `POSITION_MAP.get(k, d)`. -/
def posMapGet (k d : String) : String :=
  match POSITION_MAP.find? (fun p => p.1 == k) with
  | some p => p.2
  | none => d

/-- A single view filter value: either a `(min, max)` range or a
minimum threshold. -/
inductive FilterVal where
  | range (lo hi : Rat) : FilterVal
  | atLeast (v : Rat) : FilterVal
deriving DecidableEq, Repr

/-- One entry of `VIEW_CONFIGS`. -/
structure ViewConfig where
  columns : List String
  sort_by : String
  ascending : Bool
  filters : List (String × FilterVal)
deriving DecidableEq, Repr

def overview_table_config : ViewConfig :=
  { columns := ["web_name", "team_name", "position", "now_cost",
      "selected_by_percent", "total_points", "form",
      "expected_goal_involvements", "points_per_million"],
    sort_by := "total_points", ascending := false,
    filters := [("minutes", .atLeast 90)] }

def position_overview_config : ViewConfig :=
  { columns := ["web_name", "team_name", "now_cost", "selected_by_percent",
      "total_points", "form", "clean_sheets", "points_per_million"],
    sort_by := "total_points", ascending := false,
    filters := [("minutes", .atLeast 90)] }

def goalkeeper_analysis_config : ViewConfig :=
  { columns := ["web_name", "team_name", "now_cost", "selected_by_percent",
      "total_points", "saves_per_90", "clean_sheets",
      "save_value_per_million", "points_per_million"],
    sort_by := "save_value_per_million", ascending := false,
    filters := [("minutes", .atLeast 90)] }

def outfield_analysis_config : ViewConfig :=
  { columns := ["web_name", "team_name", "now_cost", "selected_by_percent",
      "total_points", "expected_goal_involvements",
      "clean_sheets", "form", "points_per_million"],
    sort_by := "expected_goal_involvements", ascending := false,
    filters := [("minutes", .atLeast 90)] }

def my_team_detailed_config : ViewConfig :=
  { columns := ["web_name", "position", "team_name", "now_cost",
      "total_points", "form", "minutes", "minutes_pct",
      "expected_goal_involvements", "ict_index",
      "chance_of_playing_next_round", "news",
      "my_team_position", "is_captain", "is_vice_captain"],
    sort_by := "my_team_position", ascending := true,
    filters := [] }

def transfer_search_config : ViewConfig :=
  { columns := ["web_name", "team_name", "position", "now_cost",
      "selected_by_percent", "total_points", "form",
      "expected_goal_involvements", "ict_index",
      "points_per_million", "value_score",
      "minutes_pct", "chance_of_playing_next_round"],
    sort_by := "value_score", ascending := false,
    filters := [("minutes", .atLeast 180), ("chance_of_playing_next_round", .atLeast 75)] }

def differentials_config : ViewConfig :=
  { columns := ["web_name", "team_name", "position", "now_cost",
      "selected_by_percent", "total_points", "form",
      "expected_goal_involvements", "points_per_million"],
    sort_by := "expected_goal_involvements", ascending := false,
    filters := [("selected_by_percent", .range 0 10), ("minutes", .atLeast 180)] }

def defensive_contribution_config : ViewConfig :=
  { columns := ["web_name", "team_name", "position", "now_cost",
      "total_points", "clean_sheets", "defensive_contribution",
      "defensive_contribution_per_90"],
    sort_by := "defensive_contribution", ascending := false,
    filters := [("minutes", .atLeast 180)] }

/-- `VIEW_CONFIGS` from data_models.py (insertion-ordered dict). -/
def VIEW_CONFIGS : List (String × ViewConfig) :=
  [("overview_table", overview_table_config),
   ("position_overview", position_overview_config),
   ("goalkeeper_analysis", goalkeeper_analysis_config),
   ("outfield_analysis", outfield_analysis_config),
   ("my_team_detailed", my_team_detailed_config),
   ("transfer_search", transfer_search_config),
   ("differentials", differentials_config),
   ("defensive_contribution", defensive_contribution_config)]

/-! ## player_dataframe.py -/

/-- `if c not in df.columns: df[c] = v`. -/
def DF.ensureCol (df : DF) (c : String) (v : Val) : DF :=
  if df.cols.contains c then df else df.setCol c (fun _ => v)

/-- `PlayerDataFrame._ensure_required_columns`. -/
def DF.ensureRequired (df : DF) : DF :=
  let d1 := df.ensureCol "is_in_my_team" (.bool false)
  let d2 := d1.ensureCol "my_team_position" .null
  let d3 := d2.ensureCol "is_captain" (.bool false)
  let d4 := d3.ensureCol "is_vice_captain" (.bool false)
  let d5 := d4.ensureCol "bench_position" (.bool false)
  let d6 := d5.ensureCol "chance_of_playing_next_round" (.num 100)
  let d7 := d6.ensureCol "chance_of_playing_this_round" (.num 100)
  let d8 := d7.ensureCol "news" (.str "")
  if d8.cols.contains "position" then
    d8.setCol "position" (fun r => .str (r.getVal "position").toStr)
  else d8

/-- Column maximum as the code computes it, over the numeric readings
of the rows of a list (pandas `.max()`; an all-missing column behaves
like the non-positive case in every use below). -/
def maxColRows (rows : List Row) (c : String) : Rat :=
  (rows.map (fun r => (r.getVal c).asRat)).foldr max 0

/-- The per-row `points_per_million` value:
`(total_points / now_cost).where(now_cost > 0, 0).fillna(0)`. -/
def ppmVal (r : Row) : Val :=
  .num (if 0 < (r.getVal "now_cost").asRat
    then (r.getVal "total_points").asRat / (r.getVal "now_cost").asRat else 0)

/-- Step 1 of `_apply_calculated_fields`: `points_per_million`. -/
def DF.calcPPM (df : DF) : DF :=
  if df.cols.contains "total_points" && df.cols.contains "now_cost" then
    df.setCol "points_per_million" ppmVal
  else df

/-- Step 2 of `_apply_calculated_fields`: `minutes_pct` (note: when
`minutes` is present but `current_gw` is absent, no column is written). -/
def DF.calcMinutesPct (df : DF) : DF :=
  if df.cols.contains "minutes" then
    if df.cols.contains "current_gw" then
      if decide (df.rows ≠ []) && df.rows.any (fun r => !(r.getVal "current_gw" == Val.null)) then
        if 0 < ((df.rows.headD []).getVal "current_gw").asRat * 90 then
          df.setCol "minutes_pct" (fun r =>
            .num (min 100 (max 0 ((r.getVal "minutes").asRat /
              (((df.rows.headD []).getVal "current_gw").asRat * 90) * 100))))
        else df.setCol "minutes_pct" (fun _ => .num 0)
      else df.setCol "minutes_pct" (fun _ => .num 0)
    else df
  else df.setCol "minutes_pct" (fun _ => .num 0)

/-- The per-row `value_score` value in the non-raising case, normalised
by the column maxima of the rows `rows` (Python float weights
0.4/0.3/0.3 embedded as exact rationals).  A component whose column
maximum is strictly positive is a pandas Series, so a NaN cell there
makes the whole weighted sum NaN for that row and the trailing
`.fillna(0)` turns it into 0; a component whose column maximum is not
strictly positive is the Python scalar 0 and contributes no NaN. -/
def valueScoreVal (rows : List Row) (r : Row) : Val :=
  if (0 < maxColRows rows "points_per_million" ∧
        r.getVal "points_per_million" = Val.null)
      ∨ (0 < maxColRows rows "form" ∧ r.getVal "form" = Val.null)
      ∨ (0 < maxColRows rows "expected_goal_involvements" ∧
        r.getVal "expected_goal_involvements" = Val.null) then
    .num 0
  else
    .num ((if 0 < maxColRows rows "points_per_million"
        then (r.getVal "points_per_million").asRat / maxColRows rows "points_per_million" else 0) * (2/5)
      + (if 0 < maxColRows rows "form"
        then (r.getVal "form").asRat / maxColRows rows "form" else 0) * (3/10)
      + (if 0 < maxColRows rows "expected_goal_involvements"
        then (r.getVal "expected_goal_involvements").asRat /
          maxColRows rows "expected_goal_involvements" else 0) * (3/10))

/-- Step 3 of `_apply_calculated_fields`: the composite `value_score`.
When the three source columns are present but no column maximum is
strictly positive, the three `if max > 0 else 0` norms are all Python
scalars, the weighted sum is a float scalar, and `(0.0).fillna(0)`
raises `AttributeError`; `none` models that raising path (every
zero-row table holding the three columns falls into it, since the
maxima of empty columns are NaN). -/
def DF.calcValueScore (df : DF) : Option DF :=
  if df.cols.contains "points_per_million" && df.cols.contains "form" &&
      df.cols.contains "expected_goal_involvements" then
    if 0 < maxColRows df.rows "points_per_million" ∨ 0 < maxColRows df.rows "form" ∨
        0 < maxColRows df.rows "expected_goal_involvements" then
      some (df.setCol "value_score" (valueScoreVal df.rows))
    else none
  else some (df.setCol "value_score" (fun _ => .num 0))

/-- Step 4 of `_apply_calculated_fields`: `position_short`. -/
def DF.calcPositionShort (df : DF) : DF :=
  if df.cols.contains "position" then
    df.setCol "position_short" (fun r =>
      .str (posMapGet (r.getVal "position").toStr (r.getVal "position").toStr))
  else df

/-- `PlayerDataFrame._apply_calculated_fields`; `none` propagates the
`AttributeError` raised while assigning `value_score` (no
`position_short` pass runs after the raise). -/
def DF.applyCalculated (df : DF) : Option DF :=
  (df.calcPPM.calcMinutesPct.calcValueScore).map DF.calcPositionShort

/-- `PlayerDataFrame.__init__` at the level of table values: copy the
input (value semantics here), ensure required columns, apply the
calculated fields; `none` models the constructor raising. -/
def playerInit (df : DF) : Option DF :=
  df.ensureRequired.applyCalculated

/-- One filter of `get_view`: a range filter keeps
`min <= value <= max`, a scalar filter keeps `value >= threshold`;
a filter whose field column is absent is skipped. -/
def filterStep (acc : DF) (fv : String × FilterVal) : DF :=
  if acc.cols.contains fv.1 then
    match fv.2 with
    | .range lo hi => acc.filterRows (fun r =>
        Val.le (.num lo) (r.getVal fv.1) && Val.le (r.getVal fv.1) (.num hi))
    | .atLeast v => acc.filterRows (fun r => Val.le (.num v) (r.getVal fv.1))
  else acc

/-- The filter loop of `get_view`. -/
def applyFilters (df : DF) (fs : List (String × FilterVal)) : DF :=
  fs.foldl filterStep df

/-- The filter/select/sort core of `get_view` (everything before the
result is wrapped in a new `PlayerDataFrame`). -/
def viewCore (df : DF) (c : ViewConfig) : DF :=
  let f := applyFilters df c.filters
  let avail := c.columns.filter (fun col => f.cols.contains col)
  let sel := if avail.isEmpty then f else f.selectCols avail
  if c.sort_by != "" && sel.cols.contains c.sort_by then sel.sortBy c.sort_by c.ascending
  else sel

/-- `PlayerDataFrame.get_view`: unknown views return the dataset
unchanged; known views run the core pipeline and re-wrap the result in
a new `PlayerDataFrame` (whose constructor re-runs the required-column
and calculated-field passes, and raises — `none` — when the wrapped
rows give no strictly positive column maximum for the three value-score
columns). -/
def get_view (df : DF) (name : String) : Option DF :=
  match VIEW_CONFIGS.find? (fun p => p.1 == name) with
  | none => some df
  | some pr => playerInit (viewCore df pr.2)

/-- Modelled from the words of the view claim: exactly the rows that
satisfy every applicable filter, restricted (unconditionally) to the
configured columns that exist in the table, sorted by the configured
field and direction. -/
def viewSpec (df : DF) (c : ViewConfig) : DF :=
  (((applyFilters df c.filters).selectCols
      (c.columns.filter (fun col => df.cols.contains col))).sortBy c.sort_by c.ascending)

/-- Genuine maximum of a list of rationals (0 for the empty list);
this is the claim-side reading of a column-wide maximum. -/
def specMaxList : List Rat → Rat
  | [] => 0
  | [x] => x
  | x :: y :: ys => max x (specMaxList (y :: ys))

/-- Claim-side column maximum. -/
def colMaxSpec (df : DF) (c : String) : Rat :=
  specMaxList (df.rows.map (fun r => (r.getVal c).asRat))

/-- A normalised component: `x / M` when the maximum `M` is strictly
positive, 0 otherwise. -/
def normPart (x M : Rat) : Rat := if 0 < M then x / M else 0

/-- Claim-side value-score formula for one row of a table `P`, as
amended: a row with a NaN cell in any of the three source columns whose
column-wide maximum is strictly positive gets 0 (the NaN propagates
through the weighted sum and the trailing `.fillna(0)` zeroes it);
every other row gets the weighted sum of its normalised components. -/
def valueScoreSpec (P : DF) (r : Row) : Rat :=
  if "points_per_million" ∈ P.cols ∧ "form" ∈ P.cols ∧
      "expected_goal_involvements" ∈ P.cols then
    if (0 < colMaxSpec P "points_per_million" ∧
          r.getVal "points_per_million" = Val.null)
        ∨ (0 < colMaxSpec P "form" ∧ r.getVal "form" = Val.null)
        ∨ (0 < colMaxSpec P "expected_goal_involvements" ∧
          r.getVal "expected_goal_involvements" = Val.null) then 0
    else
      (2/5) * normPart (r.getVal "points_per_million").asRat (colMaxSpec P "points_per_million")
      + (3/10) * normPart (r.getVal "form").asRat (colMaxSpec P "form")
      + (3/10) * normPart (r.getVal "expected_goal_involvements").asRat
          (colMaxSpec P "expected_goal_involvements")
  else 0

/-- The value-score claim's original per-row formula: every component
is `value / max` when its column-wide maximum is strictly positive and
0 otherwise (a missing numeric reading counts as 0), with no account of
NaN propagation through the weighted sum. -/
def valueScoreClaim (P : DF) (r : Row) : Rat :=
  if "points_per_million" ∈ P.cols ∧ "form" ∈ P.cols ∧
      "expected_goal_involvements" ∈ P.cols then
    (2/5) * normPart (r.getVal "points_per_million").asRat (colMaxSpec P "points_per_million")
    + (3/10) * normPart (r.getVal "form").asRat (colMaxSpec P "form")
    + (3/10) * normPart (r.getVal "expected_goal_involvements").asRat
        (colMaxSpec P "expected_goal_involvements")
  else 0

/-! ## cache_module.py: cache state -/

/-- The mutable fields of a `SmartDataCache`. -/
structure CacheState where
  data : Option DF
  current_gw : Option Int
  last_updated : Option Int
  cache_items : List (String × DF)
deriving DecidableEq, Repr

/-- `SmartDataCache.update(data, gw)` at time `now`. -/
def SmartDataCache.update (st : CacheState) (d : DF) (gw : Int) (now : Int) : CacheState :=
  { st with data := some d, current_gw := some gw, last_updated := some now }

/-- `SmartDataCache.get()` with no key: the main data slot. -/
def SmartDataCache.getMain (st : CacheState) : Option DF × Option Int :=
  match st.data with
  | some d => (some d, st.current_gw)
  | none => (none, none)

/-- `SmartDataCache.get(key)` for a key: the keyed item store. -/
def SmartDataCache.getItem (st : CacheState) (k : String) : Option DF :=
  (st.cache_items.find? (fun p => p.1 == k)).map (fun p => p.2)

/-- `SmartDataCache.set(key, value)` (last write to a key wins). -/
def SmartDataCache.setItem (st : CacheState) (k : String) (v : DF) : CacheState :=
  { st with cache_items := (k, v) :: st.cache_items.filter (fun p => !(p.1 == k)) }

/-! ## github_data.py -/

/-- `pd.DataFrame()`. -/
def emptyDF : DF := { cols := [], rows := [] }

/-- `PlayerDataFrame(pd.DataFrame())`: the empty table after the
constructor has ensured the required columns.  This constructor call
succeeds — the empty frame lacks the three value-score source columns,
so `_apply_calculated_fields` takes only the safe scalar branches
(`playerInit_empty` below records `playerInit emptyDF = some` of this
table). -/
def emptyPlayerDataFrame : DF := (playerInit emptyDF).getD emptyDF

/-- `check_gw_file_exists(gw)`, against a network oracle `net` giving
the outcome a HEAD probe for a gameweek would have (status 200 with a
content length above 1000).  Returns the boolean result together with
the list of gameweeks actually probed over the network. -/
def check_gw_file_exists (net : Int → Bool) (gw : Int) : Bool × List Int :=
  if 1 ≤ gw ∧ gw ≤ 38 then (net gw, [gw]) else (false, [])

/-- The `search_order` list built by `find_latest_gw_file`: the
estimated gameweek, then offsets 1..9 outwards, bounded to 1..38. -/
def searchOrder (est : Int) : List Int :=
  (List.range 9).foldl (fun acc k =>
    acc ++ (if est + ((k : Int) + 1) ≤ 38 then [est + ((k : Int) + 1)] else [])
        ++ (if 1 ≤ est - ((k : Int) + 1) then [est - ((k : Int) + 1)] else [])) [est]

/-- `find_latest_gw_file`, as a function of the network oracle and of
the number of days since the season start (Python `//` on days is
Int floor division). -/
def find_latest_gw_file (net : Int → Bool) (daysSinceStart : Int) : Int :=
  let est := max 1 (min (daysSinceStart / 7 + 1) 38)
  let latest := (searchOrder est).foldl
    (fun acc gw => if (check_gw_file_exists net gw).1 = true then max acc gw else acc) 0
  if 0 < latest then latest
  else
    match ((List.range 38).map (fun k => (38 : Int) - (k : Int))).find?
        (fun gw => (check_gw_file_exists net gw).1) with
    | some gw => gw
    | none => 1

/-- One row of teams.csv (the columns `set_index('code')[...]` keeps). -/
structure TeamRec where
  code : Int
  name : String
  short_name : String
  elo : Rat
deriving DecidableEq, Repr

/-- `team_mapping.get(x, {}).get('short_name', 'Unknown')`: dict keys
are the integer team codes (`to_dict('index')` keeps the last row for a
duplicated code); a NaN or non-numeric key misses. -/
def teamShortName (teams : List TeamRec) (v : Val) : String :=
  match v with
  | .num q =>
    match teams.reverse.find? (fun t => decide ((t.code : Rat) = q)) with
    | some t => t.short_name
    | none => "Unknown"
  | _ => "Unknown"

/-- The `team_name` assignment of `fetch_data_from_github`:
`analysis_df['team_name'] = analysis_df['team_code'].map(...)`. -/
def addTeamNames (df : DF) (teams : List TeamRec) : DF :=
  df.setCol "team_name" (fun r => .str (teamShortName teams (r.getVal "team_code")))

/-- `load_fpl_data(cache)`: `fetchResult` is the pair
`fetch_data_from_github()` would return if called (`none` standing for
its `(None, None)` failure result). -/
def load_fpl_data (st : CacheState) (now : Int) (fetchResult : Option (DF × Int)) :
    DF × CacheState :=
  match (SmartDataCache.getMain st).1 with
  | some d =>
    if should_refresh st.last_updated now = false then (d, st)
    else
      match fetchResult with
      | some pg =>
        if 0 < pg.1.rows.length then (pg.1, SmartDataCache.update st pg.1 pg.2 now)
        else (d, st)
      | none => (d, st)
  | none =>
    match fetchResult with
    | some pg =>
      if 0 < pg.1.rows.length then (pg.1, SmartDataCache.update st pg.1 pg.2 now)
      else (emptyPlayerDataFrame, st)
    | none => (emptyPlayerDataFrame, st)

/-! ## A heap of DataFrame objects

Python `PlayerDataFrame` objects hold a reference `self.df` to a
mutable DataFrame.  To state the frame/aliasing claims we model a heap
of DataFrame values addressed by allocation order: `df.copy()` and
every pandas operation that builds a new frame allocate a fresh cell;
in-place column assignment writes a cell. -/

abbrev Heap := List DF

def Heap.read (h : Heap) (r : Nat) : DF := h.getD r emptyDF

def Heap.alloc (h : Heap) (d : DF) : Heap × Nat := (h ++ [d], h.length)

def Heap.write (h : Heap) (r : Nat) (d : DF) : Heap := h.set r d

/-- `PlayerDataFrame.__init__(df)`: copy the source frame into a fresh
cell, then mutate that fresh cell (required columns, calculated
fields).  Returns the heap and either the new object's frame reference
or `none` when `_apply_calculated_fields` raises while assigning
`value_score` — the partially mutated fresh cell stays on the heap, and
every previously allocated cell is untouched either way. -/
def initH (h : Heap) (src : Nat) : Heap × Option Nat :=
  let a := Heap.alloc h (Heap.read h src)
  let h2 := Heap.write a.1 a.2 ((Heap.read a.1 a.2).ensureRequired)
  let d2 := ((Heap.read h2 a.2).calcPPM).calcMinutesPct
  let h3 := Heap.write h2 a.2 d2
  match d2.calcValueScore with
  | some d3 => (Heap.write h3 a.2 (d3.calcPositionShort), some a.2)
  | none => (h3, none)

/-- `get_view` on the heap: an unknown view returns `self` itself; a
known view re-wraps the core in a new `PlayerDataFrame`, whose
constructor may raise. -/
def get_viewH (h : Heap) (s : Nat) (name : String) : Heap × Option Nat :=
  match VIEW_CONFIGS.find? (fun p => p.1 == name) with
  | none => (h, some s)
  | some pr =>
    let a := Heap.alloc h (viewCore (Heap.read h s) pr.2)
    initH a.1 a.2

/-- The position-name normalisation at the top of `filter_by_position`. -/
def positionFull (position : String) : String :=
  match POSITION_MAP.find? (fun p => p.1 == position) with
  | some pr => if position.length ≤ 3 then pr.2 else position
  | none => position

/-- `filter_by_position` reads `self.df['position']` with no guard: on
a frame without a position column (reachable — the loader's empty
fallback `PlayerDataFrame` has none, since the constructor does not
ensure it) the subscript raises `KeyError` before any allocation. -/
def filter_by_positionH (h : Heap) (s : Nat) (position : String) : Heap × Option Nat :=
  if (Heap.read h s).cols.contains "position" then
    let a := Heap.alloc h ((Heap.read h s).filterRows
      (fun r => r.getVal "position" == .str (positionFull position)))
    initH a.1 a.2
  else (h, none)

def filter_by_teamH (h : Heap) (s : Nat) (team_name : String) : Heap × Option Nat :=
  if (Heap.read h s).cols.contains "team_name" then
    let a := Heap.alloc h ((Heap.read h s).filterRows
      (fun r => r.getVal "team_name" == .str team_name))
    initH a.1 a.2
  else (h, some s)

def filter_by_priceH (h : Heap) (s : Nat) (min_price max_price : Option Rat) :
    Heap × Option Nat :=
  if (Heap.read h s).cols.contains "now_cost" then
    let d0 := Heap.read h s
    let d1 := match min_price with
      | some mp => d0.filterRows (fun r => Val.le (.num mp) (r.getVal "now_cost"))
      | none => d0
    let d2 := match max_price with
      | some mp => d1.filterRows (fun r => Val.le (r.getVal "now_cost") (.num mp))
      | none => d1
    let a := Heap.alloc h d2
    initH a.1 a.2
  else (h, some s)

/-- `get_my_team` reads `self.df['is_in_my_team']` with no guard
(`KeyError` on a frame missing that column; frames built by the
constructor always carry it, since `_ensure_required_columns` adds
it). -/
def get_my_teamH (h : Heap) (s : Nat) : Heap × Option Nat :=
  if (Heap.read h s).cols.contains "is_in_my_team" then
    let a := Heap.alloc h ((Heap.read h s).filterRows
      (fun r => r.getVal "is_in_my_team" == .bool true))
    initH a.1 a.2
  else (h, none)

/-- `exclude_my_team`: same unguarded `is_in_my_team` read. -/
def exclude_my_teamH (h : Heap) (s : Nat) : Heap × Option Nat :=
  if (Heap.read h s).cols.contains "is_in_my_team" then
    let a := Heap.alloc h ((Heap.read h s).filterRows
      (fun r => r.getVal "is_in_my_team" == .bool false))
    initH a.1 a.2
  else (h, none)

def get_startersH (h : Heap) (s : Nat) : Heap × Option Nat :=
  if (Heap.read h s).cols.contains "my_team_position" then
    let a := Heap.alloc h ((Heap.read h s).filterRows
      (fun r => !(r.getVal "my_team_position" == Val.null)
        && Val.le (r.getVal "my_team_position") (.num 11)))
    initH a.1 a.2
  else (h, some s)

def get_benchH (h : Heap) (s : Nat) : Heap × Option Nat :=
  if (Heap.read h s).cols.contains "my_team_position" then
    let a := Heap.alloc h ((Heap.read h s).filterRows
      (fun r => !(r.getVal "my_team_position" == Val.null)
        && Val.ltb (.num 11) (r.getVal "my_team_position")))
    initH a.1 a.2
  else (h, some s)

/-- `nlargest(n, c)` embedded as: stable descending sort, take `n`
(pandas keep='first' tie behaviour). -/
def top_nH (h : Heap) (s : Nat) (n : Nat) (sort_by : String) : Heap × Option Nat :=
  if (Heap.read h s).cols.contains sort_by then
    let d0 := Heap.read h s
    let a := Heap.alloc h { cols := d0.cols, rows := (d0.sortBy sort_by false).rows.take n }
    initH a.1 a.2
  else (h, some s)

def headH (h : Heap) (s : Nat) (n : Nat) : Heap × Option Nat :=
  let d0 := Heap.read h s
  let a := Heap.alloc h { cols := d0.cols, rows := d0.rows.take n }
  initH a.1 a.2

def tailH (h : Heap) (s : Nat) (n : Nat) : Heap × Option Nat :=
  let d0 := Heap.read h s
  let a := Heap.alloc h { cols := d0.cols, rows := d0.rows.drop (d0.rows.length - n) }
  initH a.1 a.2

/-! ## data_enrichment.py -/

/-- One entry of `team_data['team']` as `enrich_with_my_team` reads it. -/
structure TeamPick where
  id : Int
  position_order : Rat
  is_captain : Bool
  is_vice_captain : Bool
deriving DecidableEq, Repr

/-- The part of the `get_my_team_data` payload the enrichment reads
into columns (the manager/value metadata only goes into `df.attrs`,
which is not part of the table). -/
structure TeamData where
  team : List TeamPick
deriving DecidableEq, Repr

/-- `df['id'] == k` for an integer `k`. -/
def valEqInt (v : Val) (i : Int) : Bool :=
  match v with
  | .num q => decide (q = (i : Rat))
  | _ => false

/-- The in-place column writes of `enrich_with_my_team` on a table. -/
def enrichMyTeamDF (df : DF) (td : TeamData) : DF :=
  let captain := (td.team.find? (fun p => p.is_captain)).map (fun p => p.id)
  let vice := (td.team.find? (fun p => p.is_vice_captain)).map (fun p => p.id)
  let d1 := df.setCol "is_in_my_team"
    (fun r => .bool (td.team.any (fun p => valEqInt (r.getVal "id") p.id)))
  let d2 := d1.setCol "my_team_position" (fun r =>
    match r.getVal "id" with
    | .num q =>
      match td.team.reverse.find? (fun p => decide (((p.id : Int) : Rat) = q)) with
      | some p => .num p.position_order
      | none => .null
    | _ => .null)
  let d3 := d2.setCol "bench_position" (fun r =>
    match r.getVal "my_team_position" with
    | .num q => .bool (decide (11 < q))
    | _ => .bool false)
  let d4 := d3.setCol "is_captain" (fun r =>
    match captain with
    | some c => .bool (valEqInt (r.getVal "id") c)
    | none => .bool false)
  let d5 := d4.setCol "is_vice_captain" (fun r =>
    match vice with
    | some c => .bool (valEqInt (r.getVal "id") c)
    | none => .bool false)
  d5

/-- `DataEnricher.enrich_with_my_team`: `td = none` models a falsy
(None) team payload from the FPL API client; otherwise the player
object's frame is mutated in place and the same object returned. -/
def enrich_with_my_teamH (h : Heap) (s : Nat) (td : Option TeamData) : Heap × Nat :=
  match td with
  | none => (h, s)
  | some t => (Heap.write h s (enrichMyTeamDF (Heap.read h s) t), s)

/-- One element of the bootstrap payload, with the values the code
reads after its `.get(..., default)` calls (a present-but-None value is
`Val.null`). -/
structure BootElem where
  id : Int
  chance_of_playing_next_round : Val
  chance_of_playing_this_round : Val
  news : Val
  status : Val
  fpl_selected_by : Rat
deriving DecidableEq, Repr

/-- `live_data.get(x, {})` keyed by player id (dict comprehension:
last duplicate wins). -/
def liveLookup (es : List BootElem) (v : Val) : Option BootElem :=
  match v with
  | .num q => es.reverse.find? (fun e => decide (((e.id : Int) : Rat) = q))
  | _ => none

/-- The in-place column writes of `enrich_with_live_status`. -/
def enrichLiveDF (df : DF) (es : List BootElem) : DF :=
  let d1 := df.setCol "chance_of_playing_next_round" (fun r =>
    match liveLookup es (r.getVal "id") with
    | some e => e.chance_of_playing_next_round
    | none => .null)
  let d2 := d1.setCol "chance_of_playing_this_round" (fun r =>
    match liveLookup es (r.getVal "id") with
    | some e => e.chance_of_playing_this_round
    | none => .null)
  let d3 := d2.setCol "news" (fun r =>
    match liveLookup es (r.getVal "id") with
    | some e => e.news
    | none => .null)
  let d4 := d3.setCol "status" (fun r =>
    match liveLookup es (r.getVal "id") with
    | some e => e.status
    | none => .null)
  let d5 := d4.setCol "fpl_selected_by" (fun r =>
    match liveLookup es (r.getVal "id") with
    | some e => .num e.fpl_selected_by
    | none => .null)
  let d6 := d5.setCol "chance_of_playing_next_round" (fun r =>
    match r.getVal "chance_of_playing_next_round" with
    | .null => .num 100
    | v => v)
  let d7 := d6.setCol "chance_of_playing_this_round" (fun r =>
    match r.getVal "chance_of_playing_this_round" with
    | .null => .num 100
    | v => v)
  let d8 := d7.setCol "news" (fun r =>
    match r.getVal "news" with
    | .null => .str ""
    | v => v)
  let d9 := d8.setCol "status" (fun r =>
    match r.getVal "status" with
    | .null => .str "a"
    | v => v)
  d9

/-- `DataEnricher.enrich_with_live_status`: `bootstrap = none` models a
falsy (None) bootstrap payload; otherwise the player object's frame is
mutated in place and the same object returned. -/
def enrich_with_live_statusH (h : Heap) (s : Nat) (bootstrap : Option (List BootElem)) :
    Heap × Nat :=
  match bootstrap with
  | none => (h, s)
  | some es => (Heap.write h s (enrichLiveDF (Heap.read h s) es), s)

/-! ## Example data for concrete evaluations -/

/-- A fresh, empty cache. -/
def exCacheEmpty : CacheState :=
  { data := none, current_gw := none, last_updated := none, cache_items := [] }

/-- A small teams table. -/
def exTeams : List TeamRec :=
  [{ code := 3, name := "Arsenal", short_name := "ARS", elo := 1900 }]

/-- Two merged player rows, one with a known team code and one with a
missing (NaN) team code. -/
def exTeamRows : DF :=
  { cols := ["id", "team_code"],
    rows := [[("id", .num 1), ("team_code", .num 3)],
             [("id", .num 2), ("team_code", .null)]] }

/-- A small player table in the shape the loader produces. -/
def exPlayers : DF :=
  { cols := ["id", "web_name", "position", "now_cost", "total_points", "form",
      "minutes", "expected_goal_involvements", "selected_by_percent",
      "current_gw", "team_name"],
    rows := [
      [("id", .num 1), ("web_name", .str "Salah"), ("position", .str "Midfielder"),
       ("now_cost", .num 13), ("total_points", .num 150), ("form", .num (11/2)),
       ("minutes", .num 1500), ("expected_goal_involvements", .num (17/20)),
       ("selected_by_percent", .num (91/2)), ("current_gw", .num 18),
       ("team_name", .str "LIV")],
      [("id", .num 2), ("web_name", .str "Haaland"), ("position", .str "Forward"),
       ("now_cost", .num 15), ("total_points", .num 180), ("form", .num 6),
       ("minutes", .num 50), ("expected_goal_involvements", .num (19/20)),
       ("selected_by_percent", .num 55), ("current_gw", .num 18),
       ("team_name", .str "MCI")]] }

/-- A one-object heap whose frame has no team_name column. -/
def exHeapNoTeam : Heap := [{ cols := ["position"], rows := [] }]

/-- A one-object heap holding the example player table. -/
def exHeapPlayers : Heap := [exPlayers]

/-- The `PlayerDataFrame` built over `exPlayers` (the constructor
succeeds there: the column maxima are positive). -/
def exPlayersP : DF := (playerInit exPlayers).getD emptyDF

/-- A table exercising NaN propagation in `value_score`: the first row
has a NaN form cell while all three column maxima are strictly
positive. -/
def exVSTable : DF :=
  { cols := ["points_per_million", "form", "expected_goal_involvements"],
    rows := [
      [("points_per_million", .num 1), ("form", .null),
       ("expected_goal_involvements", .num 1)],
      [("points_per_million", .num 2), ("form", .num 1),
       ("expected_goal_involvements", .num 2)]] }

/-- The `PlayerDataFrame` built over `exVSTable` (the constructor
succeeds there: the column maxima are positive). -/
def exVSP : DF := (playerInit exVSTable).getD emptyDF

/-- A table with a team_name column and the three value-score source
columns: filtering it down to zero rows leaves every column maximum
NaN, so re-wrapping the filtered result raises in the constructor. -/
def exTeamVS : DF :=
  { cols := ["team_name", "points_per_million", "form", "expected_goal_involvements"],
    rows := [[("team_name", .str "LIV"), ("points_per_million", .num 1),
      ("form", .num 1), ("expected_goal_involvements", .num 1)]] }

/-- A one-object heap holding `exTeamVS`. -/
def exHeapCrash : Heap := [exTeamVS]

theorem Val.le_totality (a b : Val) : Val.le a b = true ∨ Val.le b a = true := by
  cases a <;> cases b <;>
    simp only [Val.le, Val.rank, Bool.or_eq_true, Bool.not_eq_true',
      decide_eq_true_eq] <;>
    first
      | omega
      | exact le_total _ _
      | (rename_i x y
         rcases lt_trichotomy x y with h | h | h
         · exact Or.inl (Or.inl h)
         · exact Or.inl (Or.inr h)
         · exact Or.inr (Or.inl h))
      | (rename_i x y
         cases x <;> cases y <;> simp)

theorem insertLe_perm (le : Row → Row → Bool) (x : Row) (l : List Row) :
    (insertLe le x l).Perm (x :: l) := by
  induction l with
  | nil => exact List.Perm.refl _
  | cons y ys ih =>
    simp only [insertLe]
    by_cases h : le x y = true
    · simp [h]
    · rw [if_neg h]
      exact (ih.cons y).trans (List.Perm.swap x y ys)

theorem insSort_perm (le : Row → Row → Bool) (l : List Row) :
    (insSort le l).Perm l := by
  induction l with
  | nil => exact List.Perm.refl _
  | cons x xs ih =>
    exact (insertLe_perm le x (insSort le xs)).trans (ih.cons x)

/-- Inserting with a comparator that accepts against every list element
puts the element in front: sorting a list on which the comparator is
constantly true is the identity (this is how sorting on an all-null key
column behaves). -/
theorem insertLe_of_true (le : Row → Row → Bool) (x : Row) (l : List Row)
    (h : ∀ y ∈ l, le x y = true) : insertLe le x l = x :: l := by
  cases l with
  | nil => rfl
  | cons y ys => simp [insertLe, h y (List.mem_cons_self y ys)]

theorem insSort_of_true (le : Row → Row → Bool) (l : List Row)
    (h : ∀ a ∈ l, ∀ b ∈ l, le a b = true) : insSort le l = l := by
  induction l with
  | nil => rfl
  | cons x xs ih =>
    simp only [insSort]
    rw [ih (fun a ha b hb =>
      h a (List.mem_cons_of_mem x ha) b (List.mem_cons_of_mem x hb))]
    exact insertLe_of_true le x xs (fun y hy =>
      h x (List.mem_cons_self x xs) y (List.mem_cons_of_mem x hy))

theorem insertLe_sorted (le : Row → Row → Bool)
    (htrans : ∀ a b c, le a b = true → le b c = true → le a c = true)
    (htot : ∀ a b, le a b = true ∨ le b a = true) (x : Row) (l : List Row)
    (h : l.Pairwise (fun a b => le a b = true)) :
    (insertLe le x l).Pairwise (fun a b => le a b = true) := by
  induction l with
  | nil => simp [insertLe]
  | cons y ys ih =>
    rw [List.pairwise_cons] at h
    simp only [insertLe]
    by_cases hxy : le x y = true
    · rw [if_pos hxy, List.pairwise_cons]
      refine ⟨?_, List.pairwise_cons.mpr h⟩
      intro z hz
      rcases List.mem_cons.mp hz with heq | hz2
      · rw [heq]; exact hxy
      · exact htrans x y z hxy (h.1 z hz2)
    · rw [if_neg hxy, List.pairwise_cons]
      refine ⟨?_, ih h.2⟩
      intro z hz
      rcases List.mem_cons.mp ((insertLe_perm le x ys).mem_iff.mp hz) with heq | hz2
      · rw [heq]
        rcases htot x y with hx | hx
        · exact absurd hx hxy
        · exact hx
      · exact h.1 z hz2

theorem insSort_sorted (le : Row → Row → Bool)
    (htrans : ∀ a b c, le a b = true → le b c = true → le a c = true)
    (htot : ∀ a b, le a b = true ∨ le b a = true) (l : List Row) :
    (insSort le l).Pairwise (fun a b => le a b = true) := by
  induction l with
  | nil => simp [insSort]
  | cons x xs ih => exact insertLe_sorted le htrans htot x (insSort le xs) ih

theorem Val.le_transitive (a b c : Val) (h1 : Val.le a b = true) (h2 : Val.le b c = true) :
    Val.le a c = true := by
  cases a <;> cases b <;> cases c <;>
    simp_all only [Val.le, Val.rank, Bool.or_eq_true, Bool.not_eq_true',
      decide_eq_true_eq] <;>
    first
      | rfl
      | trivial
      | omega
      | exact le_trans h1 h2
      | (rcases h1 with h1 | h1 <;> rcases h2 with h2 | h2
         · exact Or.inl (lt_trans h1 h2)
         · subst h2; exact Or.inl h1
         · subst h1; exact Or.inl h2
         · subst h1; exact Or.inr h2)
      | (rcases h1 with h1 | h1 <;> rcases h2 with h2 | h2 <;> simp_all)

theorem sortCmp_trans (c : String) (asc : Bool) (a b d : Row)
    (h1 : sortCmp c asc a b = true) (h2 : sortCmp c asc b d = true) :
    sortCmp c asc a d = true := by
  cases asc <;> simp only [sortCmp, cond_true, cond_false] at *
  · exact Val.le_transitive _ _ _ h2 h1
  · exact Val.le_transitive _ _ _ h1 h2

theorem sortCmp_total (c : String) (asc : Bool) (a b : Row) :
    sortCmp c asc a b = true ∨ sortCmp c asc b a = true := by
  cases asc <;> simp only [sortCmp, cond_true, cond_false]
  · exact (Val.le_totality _ _).symm
  · exact Val.le_totality _ _

/-- The embedded `sort_values` produces a permutation of the rows that
is sorted (pairwise nondecreasing in the requested direction). -/
theorem sortBy_sorted_perm (df : DF) (c : String) (asc : Bool) :
    (df.sortBy c asc).rows.Perm df.rows ∧
      (df.sortBy c asc).rows.Pairwise (fun a b => sortCmp c asc a b = true) :=
  ⟨insSort_perm _ _, insSort_sorted _ (sortCmp_trans c asc) (sortCmp_total c asc) _⟩

theorem replaceHour_eq (now : Int) (h : Nat) :
    replaceHour now h = schedInstant (dayOf now) h := rfl

theorem dayOf_sub_day (now : Int) : dayOf (now - 86400) = dayOf now - 1 := by
  have h2 := Int.add_mul_ediv_right now (-1) (show (86400 : Int) ≠ 0 by norm_num)
  have h3 : now + -1 * 86400 = now - 86400 := by ring
  rw [h3] at h2
  unfold dayOf
  omega

/-- C1: `should_refresh` returns True iff the cache has never been
updated, or some scheduled update instant (05:00 or 17:00 UTC of the
current or of the previous day) lies strictly after `last_updated` and
at or before now; otherwise it returns False. -/
theorem should_refresh_iff (lu : Option Int) (now : Int) :
    should_refresh lu now = true ↔
      lu = none ∨ ∃ l hh d, lu = some l ∧ (hh = 5 ∨ hh = 17) ∧
        (d = dayOf now ∨ d = dayOf now - 1) ∧
        l < schedInstant d hh ∧ schedInstant d hh ≤ now := by
  cases lu with
  | none => simp [should_refresh]
  | some l =>
    simp only [should_refresh, update_hours, List.any_cons, List.any_nil,
      Bool.or_eq_true, Bool.and_eq_true, Bool.or_false, decide_eq_true_eq,
      replaceHour_eq, dayOf_sub_day, Option.some.injEq,
      reduceCtorEq, false_or]
    constructor
    · rintro ((⟨h1, h2⟩ | ⟨h1, h2⟩) | (⟨h1, h2⟩ | ⟨h1, h2⟩))
      · exact ⟨l, 5, dayOf now, rfl, Or.inl rfl, Or.inl rfl, h1, h2⟩
      · exact ⟨l, 17, dayOf now, rfl, Or.inr rfl, Or.inl rfl, h1, h2⟩
      · exact ⟨l, 5, dayOf now - 1, rfl, Or.inl rfl, Or.inr rfl, h1, h2⟩
      · exact ⟨l, 17, dayOf now - 1, rfl, Or.inr rfl, Or.inr rfl, h1, h2⟩
    · rintro ⟨l2, hh, d, heq, h5 | h17, hd | hd, hlt, hle⟩ <;>
        cases heq <;> subst_vars
      · exact Or.inl (Or.inl ⟨hlt, hle⟩)
      · exact Or.inr (Or.inl ⟨hlt, hle⟩)
      · exact Or.inl (Or.inr ⟨hlt, hle⟩)
      · exact Or.inr (Or.inr ⟨hlt, hle⟩)

/-! ## Association-list row lemmas -/

theorem find?_map_replace (r : Row) (c : String) (v : Val) :
    (r.map (fun p => if p.1 == c then (c, v) else p)).find? (fun p => p.1 == c) =
      if r.any (fun p => p.1 == c) then some (c, v) else none := by
  induction r with
  | nil => simp
  | cons p ps ih =>
    by_cases hp : (p.1 == c) = true
    · rw [List.map_cons, if_pos hp,
        if_pos (show ((p :: ps).any fun p => p.1 == c) = true by simp [hp])]
      exact List.find?_cons_of_pos _ (by simp)
    · have hpf : (p.1 == c) = false := by simpa using hp
      rw [List.map_cons, if_neg hp]
      have step : ((p :: ps.map (fun q => if q.1 == c then (c, v) else q)).find?
          (fun p => p.1 == c)) = (ps.map (fun q => if q.1 == c then (c, v) else q)).find?
          (fun p => p.1 == c) := List.find?_cons_of_neg _ hp
      rw [step, ih, List.any_cons, hpf, Bool.false_or]

theorem find?_map_replace_ne (r : Row) (c c2 : String) (v : Val) (h : c2 ≠ c) :
    (r.map (fun p => if p.1 == c then (c, v) else p)).find? (fun p => p.1 == c2) =
      r.find? (fun p => p.1 == c2) := by
  induction r with
  | nil => simp
  | cons p ps ih =>
    by_cases hp : (p.1 == c) = true
    · have hpc : p.1 = c := by simpa using hp
      rw [List.map_cons, if_pos hp]
      have s1 : (((c, v) :: ps.map (fun q => if q.1 == c then (c, v) else q)).find?
          (fun p => p.1 == c2)) = (ps.map (fun q => if q.1 == c then (c, v) else q)).find?
          (fun p => p.1 == c2) := List.find?_cons_of_neg _ (by simp [Ne.symm h])
      have s2 : ((p :: ps).find? (fun p => p.1 == c2)) = ps.find? (fun p => p.1 == c2) :=
        List.find?_cons_of_neg _ (by simp [hpc, Ne.symm h])
      rw [s1, s2, ih]
    · rw [List.map_cons, if_neg hp]
      by_cases hq : (p.1 == c2) = true
      · have s1 : ((p :: ps.map (fun q => if q.1 == c then (c, v) else q)).find?
            (fun p => p.1 == c2)) = some p := List.find?_cons_of_pos _ hq
        have s2 : ((p :: ps).find? (fun p => p.1 == c2)) = some p :=
          List.find?_cons_of_pos _ hq
        rw [s1, s2]
      · have s1 : ((p :: ps.map (fun q => if q.1 == c then (c, v) else q)).find?
            (fun p => p.1 == c2)) = (ps.map (fun q => if q.1 == c then (c, v) else q)).find?
            (fun p => p.1 == c2) := List.find?_cons_of_neg _ hq
        have s2 : ((p :: ps).find? (fun p => p.1 == c2)) = ps.find? (fun p => p.1 == c2) :=
          List.find?_cons_of_neg _ hq
        rw [s1, s2, ih]

theorem Row.getVal_setVal_self (r : Row) (c : String) (v : Val) :
    (r.setVal c v).getVal c = v := by
  unfold Row.setVal Row.getVal
  by_cases h : r.any (fun p => p.1 == c)
  · rw [if_pos h, find?_map_replace, if_pos h]
  · rw [if_neg h, List.find?_append]
    have hnone : r.find? (fun p => p.1 == c) = none := by
      rw [List.find?_eq_none]
      intro x hx hc
      exact h (List.any_eq_true.mpr ⟨x, hx, hc⟩)
    rw [hnone]
    simp

theorem Row.getVal_setVal_ne (r : Row) (c c2 : String) (v : Val) (h : c2 ≠ c) :
    (r.setVal c v).getVal c2 = r.getVal c2 := by
  unfold Row.setVal Row.getVal
  by_cases hany : r.any (fun p => p.1 == c)
  · rw [if_pos hany, find?_map_replace_ne r c c2 v h]
  · rw [if_neg hany, List.find?_append]
    have hlast : ([(c, v)] : Row).find? (fun p => p.1 == c2) = none := by
      simp [h.symm]
    rw [hlast]
    cases r.find? (fun p => p.1 == c2) <;> rfl

/-- A row whose keys are exactly `cs` (as built by `selectCols`) reads
null on any key outside `cs`. -/
theorem Row.getVal_keys_null (cs : List String) (g : String → Val) (k : String)
    (h : k ∉ cs) : Row.getVal (cs.map (fun c => (c, g c))) k = .null := by
  unfold Row.getVal
  rw [List.find?_eq_none.mpr]
  intro x hx
  rcases List.mem_map.mp hx with ⟨c, hc, rfl⟩
  simp only [beq_iff_eq]
  intro hck
  exact h (hck ▸ hc)

/-! ## Column-list lemmas -/

theorem DF.mem_setCol_cols (df : DF) (c a : String) (f : Row → Val) :
    a ∈ (df.setCol c f).cols ↔ a ∈ df.cols ∨ a = c := by
  unfold DF.setCol
  dsimp only
  by_cases hc : df.cols.contains c
  · rw [if_pos hc]
    constructor
    · exact Or.inl
    · rintro (h | rfl)
      · exact h
      · simpa using hc
  · rw [if_neg hc]
    simp

theorem DF.mem_setCol_cols_ne (df : DF) (c a : String) (f : Row → Val) (h : a ≠ c) :
    a ∈ (df.setCol c f).cols ↔ a ∈ df.cols := by
  rw [DF.mem_setCol_cols]
  simp [h]

theorem DF.rows_setCol (df : DF) (c : String) (f : Row → Val) :
    (df.setCol c f).rows = df.rows.map (fun r => r.setVal c (f r)) := rfl

/-! ## Heap frame lemmas -/

theorem Heap.read_append (h : Heap) (d : DF) (a : Nat) (ha : a < h.length) :
    Heap.read (h ++ [d]) a = Heap.read h a := by
  unfold Heap.read
  rw [List.getD_eq_getElem?_getD, List.getD_eq_getElem?_getD,
    List.getElem?_append_left ha]

theorem Heap.read_write_ne (h : Heap) (r : Nat) (d : DF) (a : Nat) (ha : a ≠ r) :
    Heap.read (Heap.write h r d) a = Heap.read h a := by
  unfold Heap.read Heap.write
  rw [List.getD_eq_getElem?_getD, List.getD_eq_getElem?_getD,
    List.getElem?_set_ne (Ne.symm ha)]

theorem initH_read (h : Heap) (s a : Nat) (ha : a < h.length) :
    Heap.read (initH h s).1 a = Heap.read h a := by
  unfold initH Heap.alloc
  dsimp only
  split
  · dsimp only
    rw [Heap.read_write_ne _ _ _ _ (by omega), Heap.read_write_ne _ _ _ _ (by omega),
      Heap.read_write_ne _ _ _ _ (by omega), Heap.read_append h _ a ha]
  · dsimp only
    rw [Heap.read_write_ne _ _ _ _ (by omega), Heap.read_write_ne _ _ _ _ (by omega),
      Heap.read_append h _ a ha]

theorem initH_ref (h : Heap) (s rr : Nat) (hrr : (initH h s).2 = some rr) :
    rr = h.length := by
  unfold initH Heap.alloc at hrr
  dsimp only at hrr
  split at hrr
  · exact (Option.some.inj hrr).symm
  · exact Option.noConfusion hrr

/-! ## Claim C8: last-write-wins cache update -/

/-- C8: the main cache slot has last-write-wins overwrite semantics:
immediately after `update(data, gw)`, `get()` with no key returns
exactly `(data, gw)`; the updated state's main fields are fully
determined by the new values (independent of whatever was cached
before), and the keyed item store is untouched by `update`, so no
earlier snapshot of the main slot remains retrievable. -/
theorem cache_update_last_write_wins (st : CacheState) (d : DF) (gw now : Int) :
    SmartDataCache.getMain (SmartDataCache.update st d gw now) = (some d, some gw) ∧
    SmartDataCache.update st d gw now =
      { data := some d, current_gw := some gw, last_updated := some now,
        cache_items := st.cache_items } ∧
    ∀ k, SmartDataCache.getItem (SmartDataCache.update st d gw now) k =
      SmartDataCache.getItem st k :=
  ⟨rfl, rfl, fun _ => rfl⟩

/-! ## Claim C10: enrichment is the identity on upstream failure -/

/-- C10: when the FPL API client returns no data (None team payload,
None bootstrap), `enrich_with_my_team` and `enrich_with_live_status`
return the input object with its frame untouched: the heap and the
object reference are unchanged. -/
theorem enrich_failure_identity (h : Heap) (s : Nat) :
    enrich_with_my_teamH h s none = (h, s) ∧
    enrich_with_live_statusH h s none = (h, s) :=
  ⟨rfl, rfl⟩

/-! ## Claim C5: load_fpl_data -/

/-- The empty-frame constructor call of `load_fpl_data` succeeds: the
empty table lacks the three value-score source columns, so
`_apply_calculated_fields` takes only the safe scalar branches and the
constructor returns the ensured table. -/
theorem playerInit_empty : playerInit emptyDF = some emptyPlayerDataFrame := by
  decide

/-- C5: `load_fpl_data` always returns a table: with a fresh cache it
returns the cached table and leaves the cache alone; when a fetch is
attempted (empty or stale cache), a successful non-empty fetch is
stored in the cache and returned, and a failed or empty fetch falls
back to the previously cached table if one exists and to an empty
`PlayerDataFrame` otherwise, leaving the cache unchanged. -/
theorem load_fpl_data_spec (st : CacheState) (now : Int) (fr : Option (DF × Int)) :
    (∀ d, st.data = some d → should_refresh st.last_updated now = false →
        load_fpl_data st now fr = (d, st)) ∧
    ((st.data = none ∨ should_refresh st.last_updated now = true) →
      (∀ pdf gw, fr = some (pdf, gw) → pdf.rows ≠ [] →
          load_fpl_data st now fr = (pdf, SmartDataCache.update st pdf gw now)) ∧
      ((fr = none ∨ ∃ pdf gw, fr = some (pdf, gw) ∧ pdf.rows = []) →
          load_fpl_data st now fr = (st.data.getD emptyPlayerDataFrame, st))) := by
  refine ⟨?_, ?_⟩
  · intro d hd hsr
    simp [load_fpl_data, SmartDataCache.getMain, hd, hsr]
  · intro href
    refine ⟨?_, ?_⟩
    · intro pdf gw hfr hne
      subst hfr
      have hlen : 0 < pdf.rows.length := List.length_pos.mpr hne
      cases hst : st.data with
      | none => simp [load_fpl_data, SmartDataCache.getMain, hst, hlen]
      | some d =>
        have h1 : should_refresh st.last_updated now = true := by
          rcases href with h0 | h1
          · rw [hst] at h0; cases h0
          · exact h1
        simp [load_fpl_data, SmartDataCache.getMain, hst, h1, hlen]
    · intro hfail
      rcases hfail with rfl | ⟨pdf, gw, rfl, hrows⟩
      · cases hst : st.data with
        | none => simp [load_fpl_data, SmartDataCache.getMain, hst]
        | some d =>
          have h1 : should_refresh st.last_updated now = true := by
            rcases href with h0 | h1
            · rw [hst] at h0; cases h0
            · exact h1
          simp [load_fpl_data, SmartDataCache.getMain, hst, h1]
      · cases hst : st.data with
        | none => simp [load_fpl_data, SmartDataCache.getMain, hst, hrows]
        | some d =>
          have h1 : should_refresh st.last_updated now = true := by
            rcases href with h0 | h1
            · rw [hst] at h0; cases h0
            · exact h1
          simp [load_fpl_data, SmartDataCache.getMain, hst, h1, hrows]

theorem load_fpl_data_spec_witness :
    (exCacheEmpty.data = none ∨ should_refresh exCacheEmpty.last_updated 0 = true) ∧
    load_fpl_data exCacheEmpty 0 none = (emptyPlayerDataFrame, exCacheEmpty) := by
  refine ⟨Or.inl rfl, ?_⟩
  have h2 := ((load_fpl_data_spec exCacheEmpty 0 none).2 (Or.inl rfl)).2 (Or.inl rfl)
  simpa using h2

/-! ## Claim C7: gameweek detection degrades to GW1 -/

theorem foldl_max_no_hit (net : Int → Bool) (l : List Int)
    (hb : ∀ g ∈ l, (check_gw_file_exists net g).1 = false) (acc : Int) :
    l.foldl (fun acc gw =>
      if (check_gw_file_exists net gw).1 = true then max acc gw else acc) acc = acc := by
  induction l generalizing acc with
  | nil => rfl
  | cons x xs ih =>
    simp only [List.foldl_cons]
    rw [hb x (List.mem_cons_self x xs)]
    rw [if_neg (by simp)]
    exact ih (fun g hg => hb g (List.mem_cons_of_mem x hg)) acc

/-- C7: when no gameweek in 1..38 has a valid data file (the probe
fails everywhere, e.g. on total network failure), `find_latest_gw_file`
returns 1; and `check_gw_file_exists` is False for any gameweek outside
1..38 without performing any network request (its probe list is
empty). -/
theorem gw_detection_failure (net : Int → Bool) (daysSinceStart gw : Int) :
    ((∀ g : Int, 1 ≤ g → g ≤ 38 → net g = false) →
      find_latest_gw_file net daysSinceStart = 1) ∧
    (¬ (1 ≤ gw ∧ gw ≤ 38) → check_gw_file_exists net gw = (false, [])) := by
  constructor
  · intro hnet
    have hb : ∀ g : Int, (check_gw_file_exists net g).1 = false := by
      intro g
      unfold check_gw_file_exists
      by_cases hg : 1 ≤ g ∧ g ≤ 38
      · rw [if_pos hg]; exact hnet g hg.1 hg.2
      · rw [if_neg hg]
    unfold find_latest_gw_file
    simp only []
    rw [foldl_max_no_hit net _ (fun g _ => hb g) 0]
    rw [if_neg (by omega)]
    rw [List.find?_eq_none.mpr (fun x _ => by simp [hb x])]
  · intro hgw
    unfold check_gw_file_exists
    rw [if_neg hgw]

theorem gw_detection_failure_witness :
    (∀ g : Int, 1 ≤ g → g ≤ 38 → (fun _ => false : Int → Bool) g = false) ∧
    find_latest_gw_file (fun _ => false) 100 = 1 ∧
    ¬ (1 ≤ (50 : Int) ∧ (50 : Int) ≤ 38) ∧
    check_gw_file_exists (fun _ => false) 50 = (false, []) := by
  refine ⟨fun g h1 h2 => rfl, ?_, by omega, ?_⟩
  · exact (gw_detection_failure (fun _ => false) 100 50).1 (fun g h1 h2 => rfl)
  · exact (gw_detection_failure (fun _ => false) 100 50).2 (by omega)

/-! ## Claim C6: team name fallback -/

/-- C6: in the merged table, a row whose team code is absent from the
teams table's code index gets the literal team name "Unknown"; a row
whose team code is present gets that team's short name. -/
theorem team_name_unknown_fallback (df : DF) (teams : List TeamRec) (r : Row)
    (hr : r ∈ (addTeamNames df teams).rows) :
    ((¬ ∃ t ∈ teams, Val.num ((t.code : Int) : Rat) = r.getVal "team_code") →
        r.getVal "team_name" = .str "Unknown") ∧
    ((∃ t ∈ teams, Val.num ((t.code : Int) : Rat) = r.getVal "team_code") →
        ∃ t ∈ teams, Val.num ((t.code : Int) : Rat) = r.getVal "team_code" ∧
          r.getVal "team_name" = .str t.short_name) := by
  unfold addTeamNames at hr
  rw [DF.rows_setCol] at hr
  rcases List.mem_map.mp hr with ⟨r0, hr0, rfl⟩
  rw [Row.getVal_setVal_self,
    Row.getVal_setVal_ne r0 "team_name" "team_code" _ (by decide)]
  cases hv : r0.getVal "team_code" with
  | num q =>
    cases hfind : teams.reverse.find? (fun t => decide ((t.code : Rat) = q)) with
    | some t =>
      have hmem : t ∈ teams := List.mem_reverse.mp (List.mem_of_find?_eq_some hfind)
      have hpred : ((t.code : Int) : Rat) = q := by simpa using List.find?_some hfind
      constructor
      · intro hno
        exact absurd ⟨t, hmem, by rw [hpred]⟩ hno
      · intro _
        exact ⟨t, hmem, by rw [hpred], by simp [teamShortName, hfind]⟩
    | none =>
      constructor
      · intro _
        simp [teamShortName, hfind]
      · rintro ⟨t, hmem, heq⟩
        have hq : ((t.code : Int) : Rat) = q := by
          injection heq
        have hne := List.find?_eq_none.mp hfind t (List.mem_reverse.mpr hmem)
        simp [hq] at hne
  | null =>
    constructor
    · intro _
      simp [teamShortName]
    · rintro ⟨t, hmem, heq⟩
      simp at heq
  | bool b =>
    constructor
    · intro _
      simp [teamShortName]
    · rintro ⟨t, hmem, heq⟩
      simp at heq
  | str s2 =>
    constructor
    · intro _
      simp [teamShortName]
    · rintro ⟨t, hmem, heq⟩
      simp at heq

theorem team_name_unknown_fallback_witness :
    ([("id", Val.num 2), ("team_code", Val.null), ("team_name", Val.str "Unknown")] ∈
        (addTeamNames exTeamRows exTeams).rows) ∧
    Row.getVal [("id", Val.num 2), ("team_code", Val.null), ("team_name", Val.str "Unknown")]
        "team_name" = .str "Unknown" := by
  refine ⟨by decide, ?_⟩
  exact (team_name_unknown_fallback exTeamRows exTeams _ (by decide)).1 (by decide)

/-! ## Claim C9: operations do not mutate the source object -/

theorem allocInit_read (h : Heap) (d : DF) (a : Nat) (ha : a < h.length) :
    Heap.read (initH (Heap.alloc h d).1 (Heap.alloc h d).2).1 a = Heap.read h a := by
  have h1 : a < (Heap.alloc h d).1.length := by
    simp only [Heap.alloc, List.length_append, List.length_cons, List.length_nil]
    omega
  rw [initH_read (Heap.alloc h d).1 (Heap.alloc h d).2 a h1]
  exact Heap.read_append h d a ha

theorem allocInit_ref (h : Heap) (d : DF) (rr : Nat)
    (hrr : (initH (Heap.alloc h d).1 (Heap.alloc h d).2).2 = some rr) :
    h.length ≤ rr := by
  rw [initH_ref (Heap.alloc h d).1 (Heap.alloc h d).2 rr hrr]
  simp only [Heap.alloc, List.length_append, List.length_cons, List.length_nil]
  omega

/-- C9 (amended): constructing a `PlayerDataFrame` and every
filtering/selection operation leaves every previously allocated frame —
in particular the source object's table — unchanged, including on the
raising paths; whenever an operation returns an object (rather than
raising), it is either the object itself (the early-return branches:
unknown view, missing team_name/now_cost/sort column) or a freshly
allocated object built from a copy.  The raising paths are the
constructor's AttributeError when the re-wrapped result keeps the three
value-score columns with no strictly positive column maximum (e.g. a
zero-row filter result), and the KeyError of the unguarded column reads
(`filter_by_position` without a position column,
`get_my_team`/`exclude_my_team` without is_in_my_team). -/
theorem player_ops_preserve_source (h : Heap) (s a : Nat) (ha : a < h.length)
    (name position team : String) (minp maxp : Option Rat) (n m : Nat) (sb : String) :
    (Heap.read (initH h s).1 a = Heap.read h a ∧
      (∀ rr, (initH h s).2 = some rr → rr = s ∨ h.length ≤ rr)) ∧
    (Heap.read (get_viewH h s name).1 a = Heap.read h a ∧
      (∀ rr, (get_viewH h s name).2 = some rr → rr = s ∨ h.length ≤ rr)) ∧
    (Heap.read (filter_by_positionH h s position).1 a = Heap.read h a ∧
      (∀ rr, (filter_by_positionH h s position).2 = some rr → rr = s ∨ h.length ≤ rr)) ∧
    (Heap.read (filter_by_teamH h s team).1 a = Heap.read h a ∧
      (∀ rr, (filter_by_teamH h s team).2 = some rr → rr = s ∨ h.length ≤ rr)) ∧
    (Heap.read (filter_by_priceH h s minp maxp).1 a = Heap.read h a ∧
      (∀ rr, (filter_by_priceH h s minp maxp).2 = some rr → rr = s ∨ h.length ≤ rr)) ∧
    (Heap.read (get_my_teamH h s).1 a = Heap.read h a ∧
      (∀ rr, (get_my_teamH h s).2 = some rr → rr = s ∨ h.length ≤ rr)) ∧
    (Heap.read (exclude_my_teamH h s).1 a = Heap.read h a ∧
      (∀ rr, (exclude_my_teamH h s).2 = some rr → rr = s ∨ h.length ≤ rr)) ∧
    (Heap.read (get_startersH h s).1 a = Heap.read h a ∧
      (∀ rr, (get_startersH h s).2 = some rr → rr = s ∨ h.length ≤ rr)) ∧
    (Heap.read (get_benchH h s).1 a = Heap.read h a ∧
      (∀ rr, (get_benchH h s).2 = some rr → rr = s ∨ h.length ≤ rr)) ∧
    (Heap.read (top_nH h s n sb).1 a = Heap.read h a ∧
      (∀ rr, (top_nH h s n sb).2 = some rr → rr = s ∨ h.length ≤ rr)) ∧
    (Heap.read (headH h s n).1 a = Heap.read h a ∧
      (∀ rr, (headH h s n).2 = some rr → rr = s ∨ h.length ≤ rr)) ∧
    (Heap.read (tailH h s m).1 a = Heap.read h a ∧
      (∀ rr, (tailH h s m).2 = some rr → rr = s ∨ h.length ≤ rr)) := by
  refine ⟨⟨initH_read h s a ha,
      fun rr hrr => Or.inr (le_of_eq (initH_ref h s rr hrr).symm)⟩,
    ?_, ?_, ?_, ?_, ?_, ?_, ?_, ?_, ?_, ?_, ?_⟩
  · cases hf : VIEW_CONFIGS.find? (fun p => p.1 == name) with
    | none =>
      refine ⟨by simp [get_viewH, hf], ?_⟩
      intro rr hrr
      simp only [get_viewH, hf] at hrr
      exact Or.inl (Option.some.inj hrr).symm
    | some pr =>
      refine ⟨?_, ?_⟩
      · simp only [get_viewH, hf]
        exact allocInit_read h _ a ha
      · intro rr hrr
        simp only [get_viewH, hf] at hrr
        exact Or.inr (allocInit_ref h _ rr hrr)
  · by_cases hg : (Heap.read h s).cols.contains "position"
    · refine ⟨?_, ?_⟩
      · simp only [filter_by_positionH, if_pos hg]
        exact allocInit_read h _ a ha
      · intro rr hrr
        simp only [filter_by_positionH, if_pos hg] at hrr
        exact Or.inr (allocInit_ref h _ rr hrr)
    · refine ⟨?_, ?_⟩
      · simp only [filter_by_positionH]
        rw [if_neg hg]
      · intro rr hrr
        simp only [filter_by_positionH] at hrr
        rw [if_neg hg] at hrr
        exact Option.noConfusion hrr
  · by_cases hg : (Heap.read h s).cols.contains "team_name"
    · refine ⟨?_, ?_⟩
      · simp only [filter_by_teamH, if_pos hg]
        exact allocInit_read h _ a ha
      · intro rr hrr
        simp only [filter_by_teamH, if_pos hg] at hrr
        exact Or.inr (allocInit_ref h _ rr hrr)
    · refine ⟨?_, ?_⟩
      · simp only [filter_by_teamH]
        rw [if_neg hg]
      · intro rr hrr
        simp only [filter_by_teamH] at hrr
        rw [if_neg hg] at hrr
        exact Or.inl (Option.some.inj hrr).symm
  · by_cases hg : (Heap.read h s).cols.contains "now_cost"
    · refine ⟨?_, ?_⟩
      · simp only [filter_by_priceH, if_pos hg]
        exact allocInit_read h _ a ha
      · intro rr hrr
        simp only [filter_by_priceH, if_pos hg] at hrr
        exact Or.inr (allocInit_ref h _ rr hrr)
    · refine ⟨?_, ?_⟩
      · simp only [filter_by_priceH]
        rw [if_neg hg]
      · intro rr hrr
        simp only [filter_by_priceH] at hrr
        rw [if_neg hg] at hrr
        exact Or.inl (Option.some.inj hrr).symm
  · by_cases hg : (Heap.read h s).cols.contains "is_in_my_team"
    · refine ⟨?_, ?_⟩
      · simp only [get_my_teamH, if_pos hg]
        exact allocInit_read h _ a ha
      · intro rr hrr
        simp only [get_my_teamH, if_pos hg] at hrr
        exact Or.inr (allocInit_ref h _ rr hrr)
    · refine ⟨?_, ?_⟩
      · simp only [get_my_teamH]
        rw [if_neg hg]
      · intro rr hrr
        simp only [get_my_teamH] at hrr
        rw [if_neg hg] at hrr
        exact Option.noConfusion hrr
  · by_cases hg : (Heap.read h s).cols.contains "is_in_my_team"
    · refine ⟨?_, ?_⟩
      · simp only [exclude_my_teamH, if_pos hg]
        exact allocInit_read h _ a ha
      · intro rr hrr
        simp only [exclude_my_teamH, if_pos hg] at hrr
        exact Or.inr (allocInit_ref h _ rr hrr)
    · refine ⟨?_, ?_⟩
      · simp only [exclude_my_teamH]
        rw [if_neg hg]
      · intro rr hrr
        simp only [exclude_my_teamH] at hrr
        rw [if_neg hg] at hrr
        exact Option.noConfusion hrr
  · by_cases hg : (Heap.read h s).cols.contains "my_team_position"
    · refine ⟨?_, ?_⟩
      · simp only [get_startersH, if_pos hg]
        exact allocInit_read h _ a ha
      · intro rr hrr
        simp only [get_startersH, if_pos hg] at hrr
        exact Or.inr (allocInit_ref h _ rr hrr)
    · refine ⟨?_, ?_⟩
      · simp only [get_startersH]
        rw [if_neg hg]
      · intro rr hrr
        simp only [get_startersH] at hrr
        rw [if_neg hg] at hrr
        exact Or.inl (Option.some.inj hrr).symm
  · by_cases hg : (Heap.read h s).cols.contains "my_team_position"
    · refine ⟨?_, ?_⟩
      · simp only [get_benchH, if_pos hg]
        exact allocInit_read h _ a ha
      · intro rr hrr
        simp only [get_benchH, if_pos hg] at hrr
        exact Or.inr (allocInit_ref h _ rr hrr)
    · refine ⟨?_, ?_⟩
      · simp only [get_benchH]
        rw [if_neg hg]
      · intro rr hrr
        simp only [get_benchH] at hrr
        rw [if_neg hg] at hrr
        exact Or.inl (Option.some.inj hrr).symm
  · by_cases hg : (Heap.read h s).cols.contains sb
    · refine ⟨?_, ?_⟩
      · simp only [top_nH, if_pos hg]
        exact allocInit_read h _ a ha
      · intro rr hrr
        simp only [top_nH, if_pos hg] at hrr
        exact Or.inr (allocInit_ref h _ rr hrr)
    · refine ⟨?_, ?_⟩
      · simp only [top_nH]
        rw [if_neg hg]
      · intro rr hrr
        simp only [top_nH] at hrr
        rw [if_neg hg] at hrr
        exact Or.inl (Option.some.inj hrr).symm
  · exact ⟨allocInit_read h _ a ha, fun rr hrr => Or.inr (allocInit_ref h _ rr hrr)⟩
  · exact ⟨allocInit_read h _ a ha, fun rr hrr => Or.inr (allocInit_ref h _ rr hrr)⟩

theorem player_ops_preserve_source_witness :
    0 < exHeapPlayers.length ∧
    Heap.read (filter_by_positionH exHeapPlayers 0 "Midfielder").1 0 =
      Heap.read exHeapPlayers 0 ∧
    Heap.read (get_viewH exHeapPlayers 0 "overview_table").1 0 =
      Heap.read exHeapPlayers 0 := by
  refine ⟨by decide, ?_, ?_⟩
  · exact ((player_ops_preserve_source exHeapPlayers 0 0 (by decide) "overview_table"
      "Midfielder" "LIV" none none 3 2 "total_points").2.2.1).1
  · exact ((player_ops_preserve_source exHeapPlayers 0 0 (by decide) "overview_table"
      "Midfielder" "LIV" none none 3 2 "total_points").2.1).1

/-- C9 as literally stated is false: `filter_by_team` on a table with
no team_name column returns the very same object over the unchanged
heap — no new PlayerDataFrame is built from a copy — and on a table
whose filtered result keeps the three value-score columns with no
surviving row, the constructor of the re-wrapped result raises instead
of returning any object. -/
theorem player_ops_new_object_cex :
    filter_by_teamH exHeapNoTeam 0 "ARS" = (exHeapNoTeam, some 0) ∧
    0 < exHeapNoTeam.length ∧
    (filter_by_teamH exHeapCrash 0 "ZZZ").2 = none := by
  refine ⟨rfl, by decide, by decide⟩

/-! ## Stage lemmas for the calculated fields -/

theorem contains_iff_mem_str (l : List String) (a : String) :
    l.contains a = true ↔ a ∈ l :=
  List.elem_iff

theorem rows_map_setCol (df : DF) (c : String) (f : Row → Val) :
    ∃ g : Row → Row, (df.setCol c f).rows = df.rows.map g ∧
      ∀ r c2, c2 ≠ c → (g r).getVal c2 = r.getVal c2 :=
  ⟨fun r => r.setVal c (f r), rfl, fun r c2 hc => Row.getVal_setVal_ne r c c2 (f r) hc⟩

theorem rows_map_id (df : DF) (c : String) :
    ∃ g : Row → Row, df.rows = df.rows.map g ∧
      ∀ r c2, c2 ≠ c → (g r).getVal c2 = r.getVal c2 :=
  ⟨id, (List.map_id df.rows).symm, fun _ _ _ => rfl⟩

theorem calcPPM_cols (df : DF) (c2 : String) (h : c2 ≠ "points_per_million") :
    c2 ∈ (df.calcPPM).cols ↔ c2 ∈ df.cols := by
  unfold DF.calcPPM
  split
  · exact DF.mem_setCol_cols_ne _ _ _ _ h
  · exact Iff.rfl

theorem calcMinutesPct_cols (df : DF) (c2 : String) (h : c2 ≠ "minutes_pct") :
    c2 ∈ (df.calcMinutesPct).cols ↔ c2 ∈ df.cols := by
  unfold DF.calcMinutesPct
  split
  · split
    · split
      · split
        · exact DF.mem_setCol_cols_ne _ _ _ _ h
        · exact DF.mem_setCol_cols_ne _ _ _ _ h
      · exact DF.mem_setCol_cols_ne _ _ _ _ h
    · exact Iff.rfl
  · exact DF.mem_setCol_cols_ne _ _ _ _ h

theorem calcValueScore_cols (df dv : DF) (hdv : df.calcValueScore = some dv)
    (c2 : String) (h : c2 ≠ "value_score") :
    c2 ∈ dv.cols ↔ c2 ∈ df.cols := by
  unfold DF.calcValueScore at hdv
  split at hdv
  · split at hdv
    · cases Option.some.inj hdv
      exact DF.mem_setCol_cols_ne _ _ _ _ h
    · exact Option.noConfusion hdv
  · cases Option.some.inj hdv
    exact DF.mem_setCol_cols_ne _ _ _ _ h

theorem calcPositionShort_cols (df : DF) (c2 : String) (h : c2 ≠ "position_short") :
    c2 ∈ (df.calcPositionShort).cols ↔ c2 ∈ df.cols := by
  unfold DF.calcPositionShort
  split
  · exact DF.mem_setCol_cols_ne _ _ _ _ h
  · exact Iff.rfl

theorem calcMinutesPct_rows (df : DF) :
    ∃ g : Row → Row, (df.calcMinutesPct).rows = df.rows.map g ∧
      ∀ r c2, c2 ≠ "minutes_pct" → (g r).getVal c2 = r.getVal c2 := by
  unfold DF.calcMinutesPct
  split
  · split
    · split
      · split
        · exact rows_map_setCol df _ _
        · exact rows_map_setCol df _ _
      · exact rows_map_setCol df _ _
    · exact rows_map_id df _
  · exact rows_map_setCol df _ _

theorem calcValueScore_rows (df dv : DF) (hdv : df.calcValueScore = some dv) :
    ∃ g : Row → Row, dv.rows = df.rows.map g ∧
      ∀ r c2, c2 ≠ "value_score" → (g r).getVal c2 = r.getVal c2 := by
  unfold DF.calcValueScore at hdv
  split at hdv
  · split at hdv
    · cases Option.some.inj hdv
      exact rows_map_setCol df _ _
    · exact Option.noConfusion hdv
  · cases Option.some.inj hdv
    exact rows_map_setCol df _ _

theorem calcPositionShort_rows (df : DF) :
    ∃ g : Row → Row, (df.calcPositionShort).rows = df.rows.map g ∧
      ∀ r c2, c2 ≠ "position_short" → (g r).getVal c2 = r.getVal c2 := by
  unfold DF.calcPositionShort
  split
  · exact rows_map_setCol df _ _
  · exact rows_map_id df _

/-! ## Claim C4: points_per_million -/

/-- C4: for every row of a successfully constructed `PlayerDataFrame`
whose table has the total_points and now_cost columns,
points_per_million equals total_points / now_cost when now_cost > 0 and
0 otherwise, so the division is never performed with a zero (or
negative) divisor. -/
theorem points_per_million_formula (df P : DF) (r : Row)
    (hP : playerInit df = some P)
    (hr : r ∈ P.rows)
    (htp : "total_points" ∈ P.cols)
    (hnc : "now_cost" ∈ P.cols) :
    r.getVal "points_per_million" =
      .num (if 0 < (r.getVal "now_cost").asRat
        then (r.getVal "total_points").asRat / (r.getVal "now_cost").asRat else 0) := by
  have hPdef : playerInit df =
      ((((df.ensureRequired).calcPPM).calcMinutesPct).calcValueScore).map
        DF.calcPositionShort := rfl
  rw [hPdef] at hP
  cases hcv : (((df.ensureRequired).calcPPM).calcMinutesPct).calcValueScore with
  | none =>
    rw [hcv] at hP
    exact absurd hP (by simp)
  | some dv =>
    rw [hcv] at hP
    simp only [Option.map_some'] at hP
    obtain rfl := Option.some.inj hP
    obtain ⟨g2, hg2r, hg2p⟩ := calcMinutesPct_rows ((df.ensureRequired).calcPPM)
    obtain ⟨g3, hg3r, hg3p⟩ := calcValueScore_rows _ dv hcv
    obtain ⟨g4, hg4r, hg4p⟩ := calcPositionShort_rows dv
    have htpE : "total_points" ∈ (df.ensureRequired).cols := by
      have h4 := (calcPositionShort_cols dv "total_points" (by decide)).mp htp
      have h3 := (calcValueScore_cols _ dv hcv "total_points" (by decide)).mp h4
      have h2 := (calcMinutesPct_cols _ "total_points" (by decide)).mp h3
      exact (calcPPM_cols _ "total_points" (by decide)).mp h2
    have hncE : "now_cost" ∈ (df.ensureRequired).cols := by
      have h4 := (calcPositionShort_cols dv "now_cost" (by decide)).mp hnc
      have h3 := (calcValueScore_cols _ dv hcv "now_cost" (by decide)).mp h4
      have h2 := (calcMinutesPct_cols _ "now_cost" (by decide)).mp h3
      exact (calcPPM_cols _ "now_cost" (by decide)).mp h2
    have hcond : ((df.ensureRequired).cols.contains "total_points" &&
        (df.ensureRequired).cols.contains "now_cost") = true := by
      rw [Bool.and_eq_true]
      exact ⟨(contains_iff_mem_str _ _).mpr htpE, (contains_iff_mem_str _ _).mpr hncE⟩
    have hppm : ((df.ensureRequired).calcPPM) =
        (df.ensureRequired).setCol "points_per_million" ppmVal := by
      unfold DF.calcPPM
      rw [if_pos hcond]
    rw [hg4r, hg3r, hg2r] at hr
    obtain ⟨ra, hra, rfl⟩ := List.mem_map.mp hr
    obtain ⟨rb, hrb, rfl⟩ := List.mem_map.mp hra
    obtain ⟨r1, hr1, rfl⟩ := List.mem_map.mp hrb
    rw [hppm, DF.rows_setCol] at hr1
    obtain ⟨r0, hr0, rfl⟩ := List.mem_map.mp hr1
    have hppm2 : (g4 (g3 (g2 (r0.setVal "points_per_million" (ppmVal r0))))).getVal
        "points_per_million" = ppmVal r0 := by
      rw [hg4p _ _ (by decide), hg3p _ _ (by decide), hg2p _ _ (by decide),
        Row.getVal_setVal_self]
    have hnc2 : (g4 (g3 (g2 (r0.setVal "points_per_million" (ppmVal r0))))).getVal
        "now_cost" = r0.getVal "now_cost" := by
      rw [hg4p _ _ (by decide), hg3p _ _ (by decide), hg2p _ _ (by decide),
        Row.getVal_setVal_ne _ _ _ _ (by decide)]
    have htp2 : (g4 (g3 (g2 (r0.setVal "points_per_million" (ppmVal r0))))).getVal
        "total_points" = r0.getVal "total_points" := by
      rw [hg4p _ _ (by decide), hg3p _ _ (by decide), hg2p _ _ (by decide),
        Row.getVal_setVal_ne _ _ _ _ (by decide)]
    rw [hppm2, hnc2, htp2]
    rfl

theorem points_per_million_formula_witness :
    playerInit exPlayers = some exPlayersP ∧
    (exPlayersP.rows.headD [] ∈ exPlayersP.rows) ∧
    "total_points" ∈ exPlayersP.cols ∧
    "now_cost" ∈ exPlayersP.cols ∧
    (exPlayersP.rows.headD []).getVal "points_per_million" =
      .num (if 0 < ((exPlayersP.rows.headD []).getVal "now_cost").asRat
        then ((exPlayersP.rows.headD []).getVal "total_points").asRat /
          ((exPlayersP.rows.headD []).getVal "now_cost").asRat else 0) := by
  refine ⟨by decide, by decide, by decide, by decide, ?_⟩
  exact points_per_million_formula exPlayers exPlayersP _ (by decide) (by decide)
    (by decide) (by decide)

/-! ## Claim C3: value_score -/

theorem foldr_max_eq (l : List Rat) : l.foldr max 0 = max 0 (specMaxList l) := by
  induction l with
  | nil => simp [specMaxList]
  | cons x xs ih =>
    cases xs with
    | nil =>
      simp only [List.foldr_cons, List.foldr_nil, specMaxList]
      exact max_comm x 0
    | cons y ys =>
      simp only [List.foldr_cons] at ih ⊢
      rw [ih]
      simp only [specMaxList]
      exact max_left_comm x 0 _

theorem normPart_bridge (l : List Row) (c : String) (v : Rat) :
    (if 0 < maxColRows l c then v / maxColRows l c else 0) =
      normPart v (specMaxList (l.map (fun r => (r.getVal c).asRat))) := by
  unfold maxColRows normPart
  rw [foldr_max_eq]
  by_cases hpos : 0 < specMaxList (l.map fun r => (r.getVal c).asRat)
  · rw [if_pos (lt_max_of_lt_right hpos), if_pos hpos, max_eq_right (le_of_lt hpos)]
  · have hz : max 0 (specMaxList (l.map fun r => (r.getVal c).asRat)) = 0 :=
      max_eq_left (le_of_not_lt hpos)
    rw [hz, if_neg (lt_irrefl 0), if_neg hpos]

theorem colVals_map (l : List Row) (g : Row → Row) (c : String)
    (hpres : ∀ r, (g r).getVal c = r.getVal c) :
    (l.map g).map (fun r => (r.getVal c).asRat) = l.map (fun r => (r.getVal c).asRat) := by
  rw [List.map_map]
  exact List.map_congr_left (fun a _ => by simp only [Function.comp_apply, hpres])

theorem maxColRows_pos_iff (l : List Row) (c : String) :
    0 < maxColRows l c ↔ 0 < specMaxList (l.map (fun r => (r.getVal c).asRat)) := by
  unfold maxColRows
  rw [foldr_max_eq]
  constructor
  · intro h
    rcases lt_max_iff.mp h with h0 | hs
    · exact absurd h0 (lt_irrefl 0)
    · exact hs
  · exact fun h => lt_max_of_lt_right h

theorem value_score_stage (D dv : DF) (r : Row)
    (hdv : D.calcValueScore = some dv)
    (hr : r ∈ (dv.calcPositionShort).rows) :
    r.getVal "value_score" = .num (valueScoreSpec (dv.calcPositionShort) r) := by
  by_cases hcond : (D.cols.contains "points_per_million" && D.cols.contains "form" &&
      D.cols.contains "expected_goal_involvements") = true
  · by_cases hmax : 0 < maxColRows D.rows "points_per_million" ∨ 0 < maxColRows D.rows "form" ∨
        0 < maxColRows D.rows "expected_goal_involvements"
    swap
    · have hnone : D.calcValueScore = none := by
        unfold DF.calcValueScore
        rw [if_pos hcond, if_neg hmax]
      rw [hnone] at hdv
      exact Option.noConfusion hdv
    have hcv : D.calcValueScore = some (D.setCol "value_score" (valueScoreVal D.rows)) := by
      unfold DF.calcValueScore
      rw [if_pos hcond, if_pos hmax]
    rw [hcv] at hdv
    cases Option.some.inj hdv
    obtain ⟨g4, hg4r, hg4p⟩ := calcPositionShort_rows (D.setCol "value_score" (valueScoreVal D.rows))
    rw [hg4r, DF.rows_setCol] at hr
    obtain ⟨r3, hr3, rfl⟩ := List.mem_map.mp hr
    obtain ⟨r2, hr2, rfl⟩ := List.mem_map.mp hr3
    rw [Bool.and_eq_true, Bool.and_eq_true] at hcond
    obtain ⟨⟨hc1, hc2⟩, hc3⟩ := hcond
    have hm1 : "points_per_million" ∈
        ((D.setCol "value_score" (valueScoreVal D.rows)).calcPositionShort).cols := by
      rw [calcPositionShort_cols _ _ (by decide), DF.mem_setCol_cols_ne _ _ _ _ (by decide)]
      exact (contains_iff_mem_str _ _).mp hc1
    have hm2 : "form" ∈
        ((D.setCol "value_score" (valueScoreVal D.rows)).calcPositionShort).cols := by
      rw [calcPositionShort_cols _ _ (by decide), DF.mem_setCol_cols_ne _ _ _ _ (by decide)]
      exact (contains_iff_mem_str _ _).mp hc2
    have hm3 : "expected_goal_involvements" ∈
        ((D.setCol "value_score" (valueScoreVal D.rows)).calcPositionShort).cols := by
      rw [calcPositionShort_cols _ _ (by decide), DF.mem_setCol_cols_ne _ _ _ _ (by decide)]
      exact (contains_iff_mem_str _ _).mp hc3
    have hvs : (g4 (r2.setVal "value_score" (valueScoreVal D.rows r2))).getVal "value_score"
        = valueScoreVal D.rows r2 := by
      rw [hg4p _ _ (by decide), Row.getVal_setVal_self]
    have hread : ∀ c, c ≠ "value_score" → c ≠ "position_short" →
        (g4 (r2.setVal "value_score" (valueScoreVal D.rows r2))).getVal c = r2.getVal c := by
      intro c h1 h2
      rw [hg4p _ _ h2, Row.getVal_setVal_ne _ _ _ _ h1]
    have hcm : ∀ c, c ≠ "value_score" → c ≠ "position_short" →
        colMaxSpec ((D.setCol "value_score" (valueScoreVal D.rows)).calcPositionShort) c =
          specMaxList (D.rows.map (fun r => (r.getVal c).asRat)) := by
      intro c h1 h2
      unfold colMaxSpec
      rw [hg4r, DF.rows_setCol]
      congr 1
      rw [colVals_map _ g4 c (fun r => hg4p r c h2)]
      exact colVals_map D.rows _ c (fun r => Row.getVal_setVal_ne r "value_score" c _ h1)
    rw [hvs]
    unfold valueScoreSpec
    rw [if_pos ⟨hm1, hm2, hm3⟩]
    rw [hread "points_per_million" (by decide) (by decide),
      hread "form" (by decide) (by decide),
      hread "expected_goal_involvements" (by decide) (by decide),
      hcm "points_per_million" (by decide) (by decide),
      hcm "form" (by decide) (by decide),
      hcm "expected_goal_involvements" (by decide) (by decide)]
    unfold valueScoreVal
    by_cases hprop : (0 < maxColRows D.rows "points_per_million" ∧
        r2.getVal "points_per_million" = Val.null)
      ∨ (0 < maxColRows D.rows "form" ∧ r2.getVal "form" = Val.null)
      ∨ (0 < maxColRows D.rows "expected_goal_involvements" ∧
        r2.getVal "expected_goal_involvements" = Val.null)
    · have hRS : (0 < specMaxList (D.rows.map (fun r => (r.getVal "points_per_million").asRat)) ∧
          r2.getVal "points_per_million" = Val.null)
        ∨ (0 < specMaxList (D.rows.map (fun r => (r.getVal "form").asRat)) ∧
          r2.getVal "form" = Val.null)
        ∨ (0 < specMaxList (D.rows.map (fun r => (r.getVal "expected_goal_involvements").asRat)) ∧
          r2.getVal "expected_goal_involvements" = Val.null) := by
        rcases hprop with ⟨h1, h2⟩ | ⟨h1, h2⟩ | ⟨h1, h2⟩
        · exact Or.inl ⟨(maxColRows_pos_iff _ _).mp h1, h2⟩
        · exact Or.inr (Or.inl ⟨(maxColRows_pos_iff _ _).mp h1, h2⟩)
        · exact Or.inr (Or.inr ⟨(maxColRows_pos_iff _ _).mp h1, h2⟩)
      rw [if_pos hprop, if_pos hRS]
    · have hRS : ¬ ((0 < specMaxList (D.rows.map (fun r => (r.getVal "points_per_million").asRat)) ∧
          r2.getVal "points_per_million" = Val.null)
        ∨ (0 < specMaxList (D.rows.map (fun r => (r.getVal "form").asRat)) ∧
          r2.getVal "form" = Val.null)
        ∨ (0 < specMaxList (D.rows.map (fun r => (r.getVal "expected_goal_involvements").asRat)) ∧
          r2.getVal "expected_goal_involvements" = Val.null)) := by
        intro hc
        apply hprop
        rcases hc with ⟨h1, h2⟩ | ⟨h1, h2⟩ | ⟨h1, h2⟩
        · exact Or.inl ⟨(maxColRows_pos_iff _ _).mpr h1, h2⟩
        · exact Or.inr (Or.inl ⟨(maxColRows_pos_iff _ _).mpr h1, h2⟩)
        · exact Or.inr (Or.inr ⟨(maxColRows_pos_iff _ _).mpr h1, h2⟩)
      rw [if_neg hprop, if_neg hRS]
      rw [normPart_bridge D.rows "points_per_million",
        normPart_bridge D.rows "form",
        normPart_bridge D.rows "expected_goal_involvements"]
      exact congrArg Val.num (by ring)
  · have hcv : D.calcValueScore = some (D.setCol "value_score" (fun _ => .num 0)) := by
      unfold DF.calcValueScore
      rw [if_neg hcond]
    rw [hcv] at hdv
    cases Option.some.inj hdv
    obtain ⟨g4, hg4r, hg4p⟩ := calcPositionShort_rows (D.setCol "value_score" (fun _ => .num 0))
    rw [hg4r, DF.rows_setCol] at hr
    obtain ⟨r3, hr3, rfl⟩ := List.mem_map.mp hr
    obtain ⟨r2, hr2, rfl⟩ := List.mem_map.mp hr3
    have hvs : (g4 (r2.setVal "value_score" (Val.num 0))).getVal "value_score" = Val.num 0 := by
      rw [hg4p _ _ (by decide), Row.getVal_setVal_self]
    have hnomem : ¬ ("points_per_million" ∈
        ((D.setCol "value_score" (fun _ => Val.num 0)).calcPositionShort).cols ∧
        "form" ∈ ((D.setCol "value_score" (fun _ => Val.num 0)).calcPositionShort).cols ∧
        "expected_goal_involvements" ∈
          ((D.setCol "value_score" (fun _ => Val.num 0)).calcPositionShort).cols) := by
      rintro ⟨h1, h2, h3⟩
      apply hcond
      rw [calcPositionShort_cols _ _ (by decide),
        DF.mem_setCol_cols_ne _ _ _ _ (by decide)] at h1 h2 h3
      rw [Bool.and_eq_true, Bool.and_eq_true]
      exact ⟨⟨(contains_iff_mem_str _ _).mpr h1, (contains_iff_mem_str _ _).mpr h2⟩,
        (contains_iff_mem_str _ _).mpr h3⟩
    rw [hvs]
    unfold valueScoreSpec
    rw [if_neg hnomem]

/-- C3 (amended): for every row of a successfully constructed
`PlayerDataFrame`, value_score equals the weighted composite
0.4 (points_per_million / max) + 0.3 (form / max) + 0.3 (xGI / max),
each component contributing 0 when its column-wide maximum is not
strictly positive — except that a row with a NaN cell in any of the
three columns whose maximum is strictly positive gets value_score 0
(the NaN propagates through the weighted sum and the trailing
`.fillna(0)` zeroes it); when any of the three columns is missing from
the table, value_score is 0 for every row (all spelled out by
`valueScoreSpec`; when the three columns are present but no column
maximum is strictly positive, the constructor raises instead of
returning a table, so there is no row to speak of). -/
theorem value_score_formula (df P : DF) (r : Row) (hP : playerInit df = some P)
    (hr : r ∈ P.rows) :
    r.getVal "value_score" = .num (valueScoreSpec P r) := by
  have hPdef : playerInit df =
      ((((df.ensureRequired).calcPPM).calcMinutesPct).calcValueScore).map
        DF.calcPositionShort := rfl
  rw [hPdef] at hP
  cases hcv : (((df.ensureRequired).calcPPM).calcMinutesPct).calcValueScore with
  | none =>
    rw [hcv] at hP
    exact absurd hP (by simp)
  | some dv =>
    rw [hcv] at hP
    simp only [Option.map_some'] at hP
    obtain rfl := Option.some.inj hP
    exact value_score_stage (((df.ensureRequired).calcPPM).calcMinutesPct) dv r hcv hr

theorem value_score_formula_witness :
    playerInit exPlayers = some exPlayersP ∧
    (exPlayersP.rows.headD [] ∈ exPlayersP.rows) ∧
    (exPlayersP.rows.headD []).getVal "value_score" =
      .num (valueScoreSpec exPlayersP (exPlayersP.rows.headD [])) := by
  refine ⟨by decide, by decide, ?_⟩
  exact value_score_formula exPlayers exPlayersP _ (by decide) (by decide)

/-- C3 as literally stated is false: in a table whose three column
maxima are all strictly positive, a row with a NaN form cell gets
value_score 0 from the program (the NaN propagates through the weighted
sum and `.fillna(0)` zeroes the row), while the claimed formula
(`valueScoreClaim`) gives the nonzero partial sum 7/20. -/
theorem value_score_claim_cex :
    playerInit exVSTable = some exVSP ∧
    exVSP.rows.headD [] ∈ exVSP.rows ∧
    (exVSP.rows.headD []).getVal "value_score" = Val.num 0 ∧
    valueScoreClaim exVSP (exVSP.rows.headD []) = 7/20 ∧
    (7/20 : Rat) ≠ 0 := by
  refine ⟨by decide, by decide, by decide, by decide, by decide⟩

/-! ## Claim C2: get_view -/

theorem filterStep_cols (d : DF) (fv : String × FilterVal) :
    (filterStep d fv).cols = d.cols := by
  unfold filterStep
  split
  · split <;> rfl
  · rfl

theorem applyFilters_cols (fs : List (String × FilterVal)) (df : DF) :
    (applyFilters df fs).cols = df.cols := by
  induction fs generalizing df with
  | nil => rfl
  | cons f fs ih =>
    have h1 : applyFilters df (f :: fs) = applyFilters (filterStep df f) fs := rfl
    rw [h1, ih, filterStep_cols]

/-- Sorting on a column that is null in every row is the identity (the
comparator is constantly true, and the sort is stable). -/
theorem sortBy_missing (df : DF) (c : String) (asc : Bool)
    (hnull : ∀ r ∈ df.rows, r.getVal c = Val.null) :
    df.sortBy c asc = df := by
  unfold DF.sortBy
  have h : insSort (sortCmp c asc) df.rows = df.rows := by
    apply insSort_of_true
    intro a ha b hb
    unfold sortCmp
    rw [hnull a ha, hnull b hb]
    cases asc <;> rfl
  rw [h]

/-- C2 (amended): for a view name present in `VIEW_CONFIGS`, provided
at least one configured column exists in the table, `get_view` wraps
the claimed filter/select/sort core — exactly the rows satisfying every
applicable filter, restricted to the configured columns that exist,
sorted by the configured field and direction — in a new
`PlayerDataFrame`, whose constructor re-adds the required default
columns and recomputes the calculated fields over the view's rows, and
which raises (`none` on both sides of the equation) when the wrapped
core keeps the three value-score columns with no strictly positive
column maximum (e.g. when no row survives the filters); for a view name
not in `VIEW_CONFIGS` it returns the full dataset unchanged. -/
theorem get_view_characterization (df : DF) (name : String) :
    (∀ nc : String × ViewConfig,
      VIEW_CONFIGS.find? (fun p => p.1 == name) = some nc →
      nc.2.columns.filter (fun col => df.cols.contains col) ≠ [] →
      get_view df name = playerInit (viewSpec df nc.2)) ∧
    (VIEW_CONFIGS.find? (fun p => p.1 == name) = none → get_view df name = some df) := by
  constructor
  · rintro ⟨nm, c⟩ hf hne
    have hgv : get_view df name = playerInit (viewCore df c) := by
      unfold get_view
      rw [hf]
    rw [hgv]
    congr 1
    have havail : c.columns.filter (fun col => (applyFilters df c.filters).cols.contains col)
        = c.columns.filter (fun col => df.cols.contains col) := by
      rw [applyFilters_cols]
    have hie : (c.columns.filter (fun col => df.cols.contains col)).isEmpty = false := by
      cases hX : (c.columns.filter (fun col => df.cols.contains col)).isEmpty
      · rfl
      · exact absurd (List.isEmpty_iff.mp hX) hne
    have hsbne : (c.sort_by != "") = true := by
      have hmem := List.mem_of_find?_eq_some hf
      have hall : ∀ p ∈ VIEW_CONFIGS, (p.2.sort_by != "") = true := by decide
      exact hall _ hmem
    simp only [viewCore, viewSpec]
    rw [havail]
    simp only [hie, Bool.false_eq_true, if_false]
    rw [hsbne]
    simp only [Bool.true_and]
    by_cases hsb : ((applyFilters df c.filters).selectCols
        (c.columns.filter (fun col => df.cols.contains col))).cols.contains c.sort_by = true
    · rw [if_pos hsb]
    · rw [if_neg hsb]
      refine (sortBy_missing _ _ _ ?_).symm
      intro r hr
      rcases List.mem_map.mp hr with ⟨r0, hr0, rfl⟩
      apply Row.getVal_keys_null
      intro hmem
      exact hsb ((contains_iff_mem_str _ _).mpr hmem)
  · intro hf
    unfold get_view
    rw [hf]

theorem get_view_characterization_witness :
    VIEW_CONFIGS.find? (fun p => p.1 == "overview_table") =
      some ("overview_table", overview_table_config) ∧
    overview_table_config.columns.filter (fun col => exPlayers.cols.contains col) ≠ [] ∧
    get_view exPlayers "overview_table" =
      playerInit (viewSpec exPlayers overview_table_config) ∧
    VIEW_CONFIGS.find? (fun p => p.1 == "missing_view") = none ∧
    get_view exPlayers "missing_view" = some exPlayers := by
  refine ⟨rfl, by decide, ?_, rfl, ?_⟩
  · exact (get_view_characterization exPlayers "overview_table").1
      ("overview_table", overview_table_config) rfl (by decide)
  · exact (get_view_characterization exPlayers "missing_view").2 rfl

/-- C2 as literally stated is false: the `PlayerDataFrame` returned by
`get_view` is not just the filtered/selected/sorted rows of the input —
the constructor re-adds required default columns (and recomputes the
calculated fields), so the result differs from the claimed table. -/
theorem get_view_claim_cex :
    get_view exPlayers "overview_table" ≠ some (viewSpec exPlayers overview_table_config) := by
  decide
